import Mathlib

/-!
Verification of the geo-attributed revenue allocation pipeline
(src/entrypoint.py).

The pipeline is embedded shallowly: pandas DataFrames become lists of
records, float columns become exact rationals, pandas operations
(cross join, boolean filter, left merge with fillna, groupby with
count/sum/mean aggregation, delete-then-append window replacement)
become the corresponding list functions.  The point-in-polygon test of
the external shapely library (Polygon.contains on a Point) is modelled
by an exact even-odd crossing test that is boundary-exclusive, which is
shapely's documented semantics for contains: a point is contained iff
it lies in the topological interior of the polygon, so boundary points
are not contained.
-/

/-! ## Geometry: model of shapely Polygon.contains for a point -/

/-- A geographic point, (latitude, longitude), exact rationals in place
of the floats held by the DataFrames. -/
abbrev Pt : Type := ℚ × ℚ

/-- Twice the signed area of the triangle a, b, p; zero iff the three
points are collinear. -/
def cross2 (a b p : Pt) : ℚ :=
  (b.1 - a.1) * (p.2 - a.2) - (b.2 - a.2) * (p.1 - a.1)

/-- The point p lies on the closed segment from a to b. -/
def onSeg (a b p : Pt) : Bool :=
  decide (cross2 a b p = 0) &&
  decide (min a.1 b.1 ≤ p.1) && decide (p.1 ≤ max a.1 b.1) &&
  decide (min a.2 b.2 ≤ p.2) && decide (p.2 ≤ max a.2 b.2)

/-- Edges of the closed polygon ring: consecutive vertex pairs,
including the closing edge from the last vertex back to the first
(shapely closes the linear ring automatically). -/
def polyEdges (poly : List Pt) : List (Pt × Pt) :=
  poly.zip (poly.rotate 1)

/-- The point p lies on the boundary of the polygon. -/
def onBoundary (poly : List Pt) (p : Pt) : Bool :=
  (polyEdges poly).any (fun e => onSeg e.1 e.2 p)

/-- The edge e straddles the horizontal line through p and intersects
the horizontal ray from p towards larger first coordinates.  The
half-open straddle rule together with the sign test is the standard
exact even-odd crossing test, written division-free. -/
def crossesRay (p : Pt) (e : Pt × Pt) : Bool :=
  (decide (e.1.2 > p.2) != decide (e.2.2 > p.2)) &&
  (if e.2.2 > e.1.2
   then decide (0 < (e.2.1 - e.1.1) * (p.2 - e.1.2) - (p.1 - e.1.1) * (e.2.2 - e.1.2))
   else decide ((e.2.1 - e.1.1) * (p.2 - e.1.2) - (p.1 - e.1.1) * (e.2.2 - e.1.2) < 0))

/-- Model of shapely Polygon(poly).contains(Point p), as called by
poly_contains_point_kvt and poly_contains_point_orders: true iff p lies
in the interior of the simple polygon, i.e. p is not on the boundary
and the even-odd crossing number is odd.  shapely contains is
boundary-exclusive for points. -/
def shapelyContains (poly : List Pt) (p : Pt) : Bool :=
  !(onBoundary poly p) && decide ((polyEdges poly).countP (crossesRay p) % 2 = 1)

/-! ## Data model -/

/-- A catalog zone: one row of df_areas with its decoded polygon
(columns area_id, area_name, area_poly). -/
structure Area where
  area_id : ℕ
  area_name : String
  area_poly : List Pt
deriving DecidableEq, Repr

/-- One telemetry sample: a row of df_kvt (timestamp dropped after the
merge, the hour bucket is kept; buckets are modelled as hour indices,
so the calendar date of bucket h is h / 24). -/
structure KvtSample where
  timestamp_hour : ℕ
  id : ℕ
  city_id : ℕ
  g_lat : ℚ
  g_lng : ℚ
deriving DecidableEq, Repr

/-- One ride record: a row of df_orders. -/
structure OrderSample where
  timestamp_hour : ℕ
  id : ℕ
  city_id : ℕ
  start_lat : ℚ
  start_lng : ℚ
  ride_amount : ℚ
  discount : ℚ
  bike_discount_amount : ℚ
  subscription_price : ℚ
deriving DecidableEq, Repr

/-- poly_contains_point_kvt: containment of the sample's point
Point(g_lat, g_lng) in the zone polygon. -/
def poly_contains_point_kvt (s : KvtSample) (a : Area) : Bool :=
  shapelyContains a.area_poly (s.g_lat, s.g_lng)

/-- poly_contains_point_orders: containment of the ride's start point
Point(start_lat, start_lng) in the zone polygon. -/
def poly_contains_point_orders (s : OrderSample) (a : Area) : Bool :=
  shapelyContains a.area_poly (s.start_lat, s.start_lng)

/-! ## Zone attribution (cross join, containment filter, left merge,
fillna(0) / fillna("0")) -/

/-- A row of df_kvt_area_res before the merge back: the key columns
kept after dropping the rest (timestamp_hour, id, area_id, area_name). -/
structure MatchRow where
  timestamp_hour : ℕ
  id : ℕ
  area_id : ℕ
  area_name : String
deriving DecidableEq, Repr

/-- The match rows a single telemetry sample contributes to the
filtered cross join: one row per area whose polygon contains it, in
catalog order. -/
def matchesOf (s : KvtSample) (areas : List Area) : List MatchRow :=
  areas.filterMap (fun a =>
    if poly_contains_point_kvt s a
    then some ⟨s.timestamp_hour, s.id, a.area_id, a.area_name⟩
    else none)

/-- Cross join of samples with areas, filtered to rows whose
containment test is True, keeping the key and zone columns: models
df_kvt.merge(df_areas, cross) -> apply(poly_contains_point_kvt) ->
filter res == True -> drop columns. -/
def kvtMatches (samples : List KvtSample) (areas : List Area) : List MatchRow :=
  samples.flatMap (fun s => matchesOf s areas)

/-- The merge key of a telemetry sample: the source merges on the
column pair (timestamp_hour, id). -/
def sampleKey (s : KvtSample) : ℕ × ℕ :=
  (s.timestamp_hour, s.id)

/-- An attributed telemetry sample: a row of the left merge of df_kvt
with the match rows, after fillna. -/
structure KvtAttr where
  timestamp_hour : ℕ
  id : ℕ
  city_id : ℕ
  area_id : ℕ
  area_name : String
deriving DecidableEq, Repr

/-- Left merge of df_kvt with the match rows on (timestamp_hour, id),
then area_id.fillna(0) and area_name.fillna("0"): a sample with no
matching row becomes one unassigned row; a sample with k matching rows
is duplicated into k rows, one per match (pandas row multiplication on
a left merge with several right matches). -/
def kvtAttributed (samples : List KvtSample) (areas : List Area) : List KvtAttr :=
  let ms := kvtMatches samples areas
  samples.flatMap (fun s =>
    let hits := ms.filter (fun m => decide ((m.timestamp_hour, m.id) = sampleKey s))
    if hits.isEmpty
    then [⟨s.timestamp_hour, s.id, s.city_id, 0, "0"⟩]
    else hits.map (fun m => ⟨s.timestamp_hour, s.id, s.city_id, m.area_id, m.area_name⟩))

/-- The attribution rows a single telemetry sample ends up with after
the left merge and the fillna: the unassigned row when no polygon
contains it, otherwise one row per containing polygon. -/
def attrRowsOf (s : KvtSample) (areas : List Area) : List KvtAttr :=
  let hits := matchesOf s areas
  if hits.isEmpty
  then [⟨s.timestamp_hour, s.id, s.city_id, 0, "0"⟩]
  else hits.map (fun m => ⟨s.timestamp_hour, s.id, s.city_id, m.area_id, m.area_name⟩)

/-- Cross join of rides with areas, filtered to containment, keeping
key and zone columns: models df_orders.merge(df_areas, cross) ->
apply(poly_contains_point_orders) -> filter -> drop columns. -/
def ordersMatches (samples : List OrderSample) (areas : List Area) : List MatchRow :=
  samples.flatMap (fun s =>
    areas.filterMap (fun a =>
      if poly_contains_point_orders s a
      then some ⟨s.timestamp_hour, s.id, a.area_id, a.area_name⟩
      else none))

/-- The merge key of a ride record: the source merges on the column
pair (timestamp_hour, id). -/
def orderSampleKey (s : OrderSample) : ℕ × ℕ :=
  (s.timestamp_hour, s.id)

/-- An attributed ride: a row of the left merge of df_orders with its
match rows, after fillna; the financial columns come from the left
(ride) side. -/
structure OrderAttr where
  timestamp_hour : ℕ
  id : ℕ
  city_id : ℕ
  ride_amount : ℚ
  discount : ℚ
  bike_discount_amount : ℚ
  subscription_price : ℚ
  area_id : ℕ
  area_name : String
deriving DecidableEq, Repr

/-- Left merge of df_orders with the ride match rows on
(timestamp_hour, id), then fillna on area_id and area_name. -/
def ordersAttributed (samples : List OrderSample) (areas : List Area) : List OrderAttr :=
  let ms := ordersMatches samples areas
  samples.flatMap (fun s =>
    let hits := ms.filter (fun m => decide ((m.timestamp_hour, m.id) = orderSampleKey s))
    if hits.isEmpty
    then [⟨s.timestamp_hour, s.id, s.city_id, s.ride_amount, s.discount,
           s.bike_discount_amount, s.subscription_price, 0, "0"⟩]
    else hits.map (fun m => ⟨s.timestamp_hour, s.id, s.city_id, s.ride_amount, s.discount,
           s.bike_discount_amount, s.subscription_price, m.area_id, m.area_name⟩))

/-! ## Hourly grain aggregation (groupby + count / sum) -/

/-- The hourly aggregation key (timestamp_hour, city_id, area_id,
area_name).  Grouping is modelled by deduplicating the key column in
first-occurrence order; the key set is the same as pandas' sorted
groupby keys. -/
structure AggKey where
  timestamp_hour : ℕ
  city_id : ℕ
  area_id : ℕ
  area_name : String
deriving DecidableEq, Repr

/-- Key of an attributed telemetry row. -/
def kvtKey (r : KvtAttr) : AggKey :=
  ⟨r.timestamp_hour, r.city_id, r.area_id, r.area_name⟩

/-- A row of df_kvt_area_res after groupby().agg(count): kvt is the
count of samples in the group. -/
structure KvtAggRow where
  timestamp_hour : ℕ
  city_id : ℕ
  area_id : ℕ
  area_name : String
  kvt : ℕ
deriving DecidableEq, Repr

/-- Key of an hourly kvt aggregate row. -/
def kvtAggKey (r : KvtAggRow) : AggKey :=
  ⟨r.timestamp_hour, r.city_id, r.area_id, r.area_name⟩

/-- groupby(timestamp_hour, city_id, area_id, area_name).agg(id:count)
renamed to kvt. -/
def kvtAgg (rows : List KvtAttr) : List KvtAggRow :=
  ((rows.map kvtKey).dedup).map (fun k =>
    ⟨k.timestamp_hour, k.city_id, k.area_id, k.area_name,
     (rows.filter (fun r => decide (kvtKey r = k))).length⟩)

/-- Key of an attributed ride row. -/
def orderKey (r : OrderAttr) : AggKey :=
  ⟨r.timestamp_hour, r.city_id, r.area_id, r.area_name⟩

/-- A row of df_orders_areas_res after groupby().agg: poezdok is the
ride count, the four financial fields are sums over the group. -/
structure OrdersAggRow where
  timestamp_hour : ℕ
  city_id : ℕ
  area_id : ℕ
  area_name : String
  poezdok : ℕ
  obzchaya_stoimost : ℚ
  oplacheno_bonusami : ℚ
  skidka : ℚ
  abon : ℚ
deriving DecidableEq, Repr

/-- Key of an hourly orders aggregate row. -/
def ordersAggKey (r : OrdersAggRow) : AggKey :=
  ⟨r.timestamp_hour, r.city_id, r.area_id, r.area_name⟩

/-- groupby(timestamp_hour, city_id, area_id, area_name)
.agg(id: count, ride_amount: sum, discount: sum,
bike_discount_amount: sum, subscription_price: sum), with the renames
performed by the source. -/
def ordersAgg (rows : List OrderAttr) : List OrdersAggRow :=
  ((rows.map orderKey).dedup).map (fun k =>
    let g := rows.filter (fun r => decide (orderKey r = k))
    ⟨k.timestamp_hour, k.city_id, k.area_id, k.area_name,
     g.length,
     (g.map (fun r => r.ride_amount)).sum,
     (g.map (fun r => r.discount)).sum,
     (g.map (fun r => r.bike_discount_amount)).sum,
     (g.map (fun r => r.subscription_price)).sum⟩)

/-! ## Daily grain rollup -/

/-- Calendar date of an hour bucket: pd.to_datetime(dt.date), with
buckets as hour indices. -/
def dayOf (timestamp_hour : ℕ) : ℕ :=
  timestamp_hour / 24

/-- The daily aggregation key (start_day, city_id, area_id, area_name). -/
structure DailyKey where
  start_day : ℕ
  city_id : ℕ
  area_id : ℕ
  area_name : String
deriving DecidableEq, Repr

/-- Daily key of an hourly kvt aggregate row. -/
def kvtDailyKey (r : KvtAggRow) : DailyKey :=
  ⟨dayOf r.timestamp_hour, r.city_id, r.area_id, r.area_name⟩

/-- A daily kvt row: kvt is the mean of the day's hourly kvt values,
hence rational-valued. -/
structure DailyKvtRow where
  start_day : ℕ
  city_id : ℕ
  area_id : ℕ
  area_name : String
  kvt : ℚ
deriving DecidableEq, Repr

/-- groupby(start_day, city_id, area_id, area_name).agg(kvt: mean):
the daily kvt is the arithmetic mean of the hourly kvt values of the
group. -/
def dailyKvtAgg (rows : List KvtAggRow) : List DailyKvtRow :=
  ((rows.map kvtDailyKey).dedup).map (fun k =>
    let g := rows.filter (fun r => decide (kvtDailyKey r = k))
    ⟨k.start_day, k.city_id, k.area_id, k.area_name,
     ((g.map (fun r => (r.kvt : ℚ))).sum) / (g.length : ℚ)⟩)

/-- Daily key of an hourly orders aggregate row. -/
def ordersDailyKey (r : OrdersAggRow) : DailyKey :=
  ⟨dayOf r.timestamp_hour, r.city_id, r.area_id, r.area_name⟩

/-- A daily orders row: all ride-derived fields are sums over the
day's hourly rows. -/
structure DailyOrdersRow where
  start_day : ℕ
  city_id : ℕ
  area_id : ℕ
  area_name : String
  poezdok : ℕ
  obzchaya_stoimost : ℚ
  oplacheno_bonusami : ℚ
  skidka : ℚ
  abon : ℚ
deriving DecidableEq, Repr

/-- groupby(start_day, city_id, area_id, area_name).agg(poezdok: sum,
obzchaya_stoimost: sum, oplacheno_bonusami: sum, skidka: sum,
abon: sum). -/
def dailyOrdersAgg (rows : List OrdersAggRow) : List DailyOrdersRow :=
  ((rows.map ordersDailyKey).dedup).map (fun k =>
    let g := rows.filter (fun r => decide (ordersDailyKey r = k))
    ⟨k.start_day, k.city_id, k.area_id, k.area_name,
     (g.map (fun r => r.poezdok)).sum,
     (g.map (fun r => r.obzchaya_stoimost)).sum,
     (g.map (fun r => r.oplacheno_bonusami)).sum,
     (g.map (fun r => r.skidka)).sum,
     (g.map (fun r => r.abon)).sum⟩)

/-! ## Distribution engine (hourly pipeline) -/

/-- A row of df_distr in the hourly pipeline: the three city-level
totals, keyed by city only (the hourly distribution query aggregates
per city over the whole lookback window). -/
structure DistrRow where
  city_id : ℕ
  dolgi : ℚ
  vyruchka_s_abonementov : ℚ
  sum_mnogor_abon : ℚ
deriving DecidableEq, Repr

/-- Left merge with df_distr on city_id followed by to_numeric and
fillna(0): the distribution query emits one row per city (GROUP BY
city_id), so the merge is a lookup; an absent city yields zero totals. -/
def distrFor (distr : List DistrRow) (city : ℕ) : DistrRow :=
  match distr.find? (fun d => decide (d.city_id = city)) with
  | some d => d
  | none => ⟨city, 0, 0, 0⟩

/-- cum_poezdok: groupby(city_id).poezdok.transform(sum) — the
denominator is the city's total ride count over ALL buckets of the
aggregate, not per (bucket, city). -/
def cumPoezdok (aggs : List OrdersAggRow) (city : ℕ) : ℕ :=
  ((aggs.filter (fun r => decide (r.city_id = city))).map (fun r => r.poezdok)).sum

/-- An orders aggregate row extended with cum_poezdok and the three
apportioned shares (columns dolgi_res, vyruchka_s_abonementov_res,
sum_mnogor_abon_res). -/
structure DistrOut where
  row : OrdersAggRow
  cum_poezdok : ℕ
  dolgi_res : ℚ
  vyruchka_res : ℚ
  mnogor_res : ℚ
deriving DecidableEq, Repr

/-- The distribution step of the hourly pipeline: for every orders
aggregate row, share = city total × poezdok / cum_poezdok. -/
def distribute (aggs : List OrdersAggRow) (distr : List DistrRow) : List DistrOut :=
  aggs.map (fun r =>
    let d := distrFor distr r.city_id
    let cum := cumPoezdok aggs r.city_id
    ⟨r, cum,
     d.dolgi * (r.poezdok : ℚ) / (cum : ℚ),
     d.vyruchka_s_abonementov * (r.poezdok : ℚ) / (cum : ℚ),
     d.sum_mnogor_abon * (r.poezdok : ℚ) / (cum : ℚ)⟩)

/-! ## Distribution engine (daily pipeline) -/

/-- A row of df_distr in the daily pipeline: the three shared totals
keyed by (start_day, city_id) — the daily distribution query groups
per day AND city, unlike the hourly one. -/
structure DailyDistrRow where
  start_day : ℕ
  city_id : ℕ
  dolgi : ℚ
  vyruchka_s_abonementov : ℚ
  sum_mnogor_abon : ℚ
deriving DecidableEq, Repr

/-- Left merge of the daily aggregate with df_distr on
(start_day, city_id) followed by fillna(0): the query emits one row
per (day, city), so the merge is a lookup; an absent key yields zero
totals. -/
def distrDailyFor (distr : List DailyDistrRow) (d c : ℕ) : DailyDistrRow :=
  match distr.find? (fun x => decide (x.start_day = d ∧ x.city_id = c)) with
  | some x => x
  | none => ⟨d, c, 0, 0, 0⟩

/-- cum_poezdok of the daily pipeline:
groupby('city_id').poezdok.transform('sum') — even at daily grain the
denominator is grouped by city ONLY, so it spans all days of the
window, while the totals being apportioned are per (day, city). -/
def cumPoezdokDaily (aggs : List DailyOrdersRow) (city : ℕ) : ℕ :=
  ((aggs.filter (fun r => decide (r.city_id = city))).map (fun r => r.poezdok)).sum

/-- A daily orders aggregate row extended with cum_poezdok and the
three apportioned shares. -/
structure DailyDistrOut where
  row : DailyOrdersRow
  cum_poezdok : ℕ
  dolgi_res : ℚ
  vyruchka_res : ℚ
  mnogor_res : ℚ
deriving DecidableEq, Repr

/-- The distribution step of the daily pipeline: for every daily
orders aggregate row, share = the (start_day, city) total × poezdok /
cum_poezdok, with the denominator grouped by city only. -/
def distributeDaily (aggs : List DailyOrdersRow) (distr : List DailyDistrRow) :
    List DailyDistrOut :=
  aggs.map (fun r =>
    let d := distrDailyFor distr r.start_day r.city_id
    let cum := cumPoezdokDaily aggs r.city_id
    ⟨r, cum,
     d.dolgi * (r.poezdok : ℚ) / (cum : ℚ),
     d.vyruchka_s_abonementov * (r.poezdok : ℚ) / (cum : ℚ),
     d.sum_mnogor_abon * (r.poezdok : ℚ) / (cum : ℚ)⟩)

/-! ## Rollup merge (left join of kvt aggregates with distributed
orders aggregates) -/

/-- A row of df_orders_kvt_area_res: the persisted result row minus
the generation timestamp. -/
structure FinalRow where
  timestamp_hour : ℕ
  city_id : ℕ
  area_id : ℕ
  area_name : String
  kvt : ℕ
  poezdok : ℚ
  obzchaya_stoimost : ℚ
  oplacheno_bonusami : ℚ
  skidka : ℚ
  abon : ℚ
  dolgi : ℚ
  vyruchka_s_abonementov : ℚ
  sum_mnogor_abon : ℚ
deriving DecidableEq, Repr

/-- df_kvt_area_res.merge(df_orders_areas_res, left, on the four key
columns), column selection, and fillna(0) on every ride-derived
column: telemetry aggregates drive the join; a kvt key with no orders
counterpart gets zeros, and orders keys with no kvt counterpart are
dropped. -/
def mergeKvtOrders (kvtRows : List KvtAggRow) (ords : List DistrOut) : List FinalRow :=
  kvtRows.flatMap (fun k =>
    let hits := ords.filter (fun o => decide (ordersAggKey o.row = kvtAggKey k))
    if hits.isEmpty
    then [⟨k.timestamp_hour, k.city_id, k.area_id, k.area_name, k.kvt,
           0, 0, 0, 0, 0, 0, 0, 0⟩]
    else hits.map (fun o =>
      ⟨k.timestamp_hour, k.city_id, k.area_id, k.area_name, k.kvt,
       (o.row.poezdok : ℚ), o.row.obzchaya_stoimost, o.row.oplacheno_bonusami,
       o.row.skidka, o.row.abon, o.dolgi_res, o.vyruchka_res, o.mnogor_res⟩))

/-- The hourly pipeline from raw samples to result rows: attribute,
aggregate, distribute, merge. -/
def hourlyPipeline (kvtS : List KvtSample) (ordS : List OrderSample)
    (areas : List Area) (distr : List DistrRow) : List FinalRow :=
  mergeKvtOrders (kvtAgg (kvtAttributed kvtS areas))
    (distribute (ordersAgg (ordersAttributed ordS areas)) distr)

/-! ## Idempotent writer (delete window, stamp add_time, append) -/

/-- A sink row: a result row plus the generation timestamp column
add_time stamped by pd.Timestamp.now() before the write. -/
structure SinkRow where
  data : FinalRow
  add_time : ℕ
deriving DecidableEq, Repr

/-- Stamping the add_time column: a single scalar value is assigned to
the whole column, so every row of the run receives the same value. -/
def stampAddTime (t : ℕ) (rows : List FinalRow) : List SinkRow :=
  rows.map (fun r => ⟨r, t⟩)

/-- The DELETE statement: remove every sink row whose bucket lies in
the recomputed window (timestamp_hour >= wstart; the window is
unbounded above). -/
def deleteWindow (sink : List SinkRow) (wstart : ℕ) : List SinkRow :=
  sink.filter (fun r => decide (r.data.timestamp_hour < wstart))

/-- The full window replacement as the sink observes it once the run
has finished: the window-scoped delete followed by the append of the
new rows. -/
def replaceWindow (sink : List SinkRow) (wstart : ℕ) (rows : List SinkRow) : List SinkRow :=
  deleteWindow sink wstart ++ rows

/-- The sequence of sink states a concurrent reader can observe during
a run: the initial state; the state after the DELETE transaction
commits (the code opens a transaction, executes only the DELETE and
commits it); and the state after the separate to_sql append
completes. -/
def replaceWindowStates (sink : List SinkRow) (wstart : ℕ) (rows : List SinkRow) :
    List (List SinkRow) :=
  [sink, deleteWindow sink wstart, deleteWindow sink wstart ++ rows]

/-- The point p lies strictly outside the bounding box of the polygon:
beyond it in at least one of the four axis directions. -/
def outsideBBox (poly : List Pt) (p : Pt) : Prop :=
  (∀ v ∈ poly, v.1 < p.1) ∨ (∀ v ∈ poly, p.1 < v.1) ∨
  (∀ v ∈ poly, v.2 < p.2) ∨ (∀ v ∈ poly, p.2 < v.2)

/-! ## Concrete inputs used by the counterexamples and witnesses -/

/-- A 2-by-2 square zone polygon with a vertex at the origin. -/
def exSquare : List Pt := [(0, 0), (0, 2), (2, 2), (2, 0)]

/-- A 3-by-3 square zone polygon overlapping exSquare. -/
def exSquare3 : List Pt := [(0, 0), (0, 3), (3, 3), (3, 0)]

/-- A zone polygon whose vertices have latitudes far outside the valid
[-90, 90] range. -/
def exFarPoly : List Pt := [(150, 0), (150, 10), (250, 10), (250, 0)]

/-- Zone 1 over the 2-by-2 square. -/
def exArea1 : Area := ⟨1, "Z1", exSquare⟩

/-- Zone 2 over the overlapping 3-by-3 square. -/
def exArea2 : Area := ⟨2, "Z2", exSquare3⟩

/-- Zone 7 over the far-away polygon with invalid latitudes. -/
def exArea7 : Area := ⟨7, "Z7", exFarPoly⟩

/-- A telemetry sample at (1, 1): inside both exArea1 and exArea2. -/
def exSample : KvtSample := ⟨0, 1, 1, 1, 1⟩

/-- A telemetry sample at (50, 50): inside no example zone. -/
def exFarSample : KvtSample := ⟨0, 3, 1, 50, 50⟩

/-- A telemetry sample with malformed latitude 200 (outside [-90, 90]). -/
def exMalformed : KvtSample := ⟨0, 9, 1, 200, 5⟩

/-- Two hourly orders aggregate rows of the same city in two different
hour buckets, one ride each. -/
def exAggsTwoBuckets : List OrdersAggRow :=
  [⟨0, 1, 1, "Z1", 1, 0, 0, 0, 0⟩, ⟨1, 1, 1, "Z1", 1, 0, 0, 0, 0⟩]

/-- Distribution input: city 1 carries a debt total of 10. -/
def exDistr : List DistrRow := [⟨1, 10, 0, 0⟩]

/-- Two daily orders aggregate rows of city 1 on the two days of the
window, one ride each. -/
def exDailyAggs : List DailyOrdersRow :=
  [⟨0, 1, 1, "Z1", 1, 0, 0, 0, 0⟩, ⟨1, 1, 1, "Z1", 1, 0, 0, 0, 0⟩]

/-- Daily distribution input: city 1 owes 10 on day 0 and 0 on day 1. -/
def exDailyDistr : List DailyDistrRow := [⟨0, 1, 10, 0, 0⟩, ⟨1, 1, 0, 0, 0⟩]

/-- Three hourly kvt aggregate rows of one (city, zone) on one day,
with kvt values 2, 4, 6. -/
def exKvtHourly : List KvtAggRow :=
  [⟨0, 1, 1, "Z1", 2⟩, ⟨1, 1, 1, "Z1", 4⟩, ⟨2, 1, 1, "Z1", 6⟩]

/-- Three hourly orders aggregate rows of one (city, zone) on one day. -/
def exOrdersHourly : List OrdersAggRow :=
  [⟨0, 1, 1, "Z1", 1, 100, 7, 3, 2⟩, ⟨1, 1, 1, "Z1", 2, 50, 1, 1, 1⟩,
   ⟨2, 1, 1, "Z1", 3, 25, 2, 0, 0⟩]

/-- A result row in hour bucket 5. -/
def exRowA : FinalRow := ⟨5, 1, 1, "Z1", 1, 1, 100, 0, 0, 0, 10, 0, 0⟩

/-- A result row in hour bucket 7. -/
def exRowB : FinalRow := ⟨7, 1, 2, "Z2", 2, 1, 50, 0, 0, 0, 5, 0, 0⟩

/-- A sink holding one prior row inside the recomputed window. -/
def exSink : List SinkRow := [⟨exRowA, 0⟩]

/-- The freshly computed rows of the rerun, stamped at time 1. -/
def exNewRows : List SinkRow := stampAddTime 1 [exRowB]

/-! ## Geometry lemmas -/

lemma onSeg_self_left (a b : Pt) : onSeg a b a = true := by
  simp only [onSeg, Bool.and_eq_true, decide_eq_true_eq]
  refine ⟨⟨⟨⟨?_, min_le_left _ _⟩, le_max_left _ _⟩, min_le_left _ _⟩, le_max_left _ _⟩
  simp only [cross2]
  ring

lemma onBoundary_of_mem {poly : List Pt} {p : Pt} (hp : p ∈ poly) :
    onBoundary poly p = true := by
  obtain ⟨i, hi, hip⟩ := List.mem_iff_getElem.mp hp
  have hle : (polyEdges poly).length = poly.length := by
    simp [polyEdges, List.length_zip]
  have hi2 : i < (polyEdges poly).length := by rw [hle]; exact hi
  have hi3 : i < (poly.rotate 1).length := by simpa using hi
  have hfst : ((polyEdges poly).get ⟨i, hi2⟩).1 = p := by
    have hz : (polyEdges poly).get ⟨i, hi2⟩
        = (poly.get ⟨i, hi⟩, (poly.rotate 1).get ⟨i, hi3⟩) := by
      simp [polyEdges, List.get_eq_getElem, List.getElem_zip]
    rw [hz]
    simpa [List.get_eq_getElem] using hip
  unfold onBoundary
  rw [List.any_eq_true]
  refine ⟨(polyEdges poly).get ⟨i, hi2⟩, List.get_mem _ _ _, ?_⟩
  rw [hfst]
  exact onSeg_self_left _ _

lemma polyEdges_mem {poly : List Pt} {e : Pt × Pt} (he : e ∈ polyEdges poly) :
    e.1 ∈ poly ∧ e.2 ∈ poly := by
  have he2 : (e.1, e.2) ∈ poly.zip (poly.rotate 1) := by
    simpa [polyEdges] using he
  obtain ⟨h1, h2⟩ := List.of_mem_zip he2
  exact ⟨h1, List.mem_rotate.mp h2⟩

lemma changes_parity {α : Type} (g : α → Bool) (z : α) (xs : List α) :
    ∀ a : α, (((a :: xs).zip (xs ++ [z])).countP (fun e => g e.1 != g e.2)) % 2
      = if g a != g z then 1 else 0 := by
  induction xs with
  | nil =>
      intro a
      cases hga : g a <;> cases hgz : g z <;>
        simp [List.countP_cons, hga, hgz]
  | cons x xs ih =>
      intro a
      rw [List.cons_append, List.zip_cons_cons, List.countP_cons, Nat.add_mod, ih x]
      cases hga : g a <;> cases hgx : g x <;> cases hgz : g z <;>
        simp [hga, hgx, hgz]

lemma straddle_even {α : Type} (g : α → Bool) (l : List α) :
    ((l.zip (l.rotate 1)).countP (fun e => g e.1 != g e.2)) % 2 = 0 := by
  cases l with
  | nil => simp
  | cons v vs =>
      have hrot : (v :: vs).rotate 1 = vs ++ [v] := by
        rw [List.rotate_cons_succ, List.rotate_zero]
      rw [hrot, changes_parity g v vs v]
      simp

lemma onSeg_false_beyond {a b q : Pt}
    (h : max a.1 b.1 < q.1 ∨ q.1 < min a.1 b.1 ∨ max a.2 b.2 < q.2 ∨ q.2 < min a.2 b.2) :
    onSeg a b q = false := by
  rw [Bool.eq_false_iff]
  intro hc
  simp only [onSeg, Bool.and_eq_true, decide_eq_true_eq] at hc
  obtain ⟨⟨⟨⟨-, h2⟩, h3⟩, h4⟩, h5⟩ := hc
  rcases h with h | h | h | h
  · exact absurd h3 (not_le.mpr h)
  · exact absurd h2 (not_le.mpr h)
  · exact absurd h5 (not_le.mpr h)
  · exact absurd h4 (not_le.mpr h)

lemma crossesRay_false_of_nostraddle {p : Pt} {e : Pt × Pt}
    (h : (p.2 < e.1.2 ∧ p.2 < e.2.2) ∨ (e.1.2 ≤ p.2 ∧ e.2.2 ≤ p.2)) :
    crossesRay p e = false := by
  unfold crossesRay
  rcases h with ⟨h1, h2⟩ | ⟨h1, h2⟩
  · simp [h1, h2]
  · simp [not_lt.mpr h1, not_lt.mpr h2]

lemma crossesRay_false_of_right {p : Pt} {e : Pt × Pt}
    (h1 : e.1.1 < p.1) (h2 : e.2.1 < p.1) :
    crossesRay p e = false := by
  rcases le_or_lt e.1.2 p.2 with ha | ha <;> rcases le_or_lt e.2.2 p.2 with hb | hb
  · exact crossesRay_false_of_nostraddle (Or.inr ⟨ha, hb⟩)
  · have hd : e.1.2 < e.2.2 := lt_of_le_of_lt ha hb
    have hneg : (e.2.1 - e.1.1) * (p.2 - e.1.2) - (p.1 - e.1.1) * (e.2.2 - e.1.2) < 0 := by
      nlinarith [mul_nonneg (sub_nonneg.mpr ha) (sub_nonneg.mpr h2.le),
        mul_pos (sub_pos.mpr hb) (sub_pos.mpr h1)]
    unfold crossesRay
    simp [hd, lt_asymm hneg]
  · have hd : ¬ e.1.2 < e.2.2 := not_lt.mpr (le_of_lt (lt_of_le_of_lt hb ha))
    have hpos : 0 < (e.2.1 - e.1.1) * (p.2 - e.1.2) - (p.1 - e.1.1) * (e.2.2 - e.1.2) := by
      nlinarith [mul_pos (sub_pos.mpr ha) (sub_pos.mpr h2),
        mul_nonneg (sub_nonneg.mpr hb) (sub_nonneg.mpr h1.le)]
    unfold crossesRay
    simp [hd, lt_asymm hpos]
  · exact crossesRay_false_of_nostraddle (Or.inl ⟨ha, hb⟩)

lemma crossesRay_eq_straddle_of_left {p : Pt} {e : Pt × Pt}
    (h1 : p.1 < e.1.1) (h2 : p.1 < e.2.1) :
    crossesRay p e = (decide (e.1.2 > p.2) != decide (e.2.2 > p.2)) := by
  rcases le_or_lt e.1.2 p.2 with ha | ha <;> rcases le_or_lt e.2.2 p.2 with hb | hb
  · rw [crossesRay_false_of_nostraddle (Or.inr ⟨ha, hb⟩)]
    simp [not_lt.mpr ha, not_lt.mpr hb]
  · have hd : e.1.2 < e.2.2 := lt_of_le_of_lt ha hb
    have hpos : 0 < (e.2.1 - e.1.1) * (p.2 - e.1.2) - (p.1 - e.1.1) * (e.2.2 - e.1.2) := by
      nlinarith [mul_nonneg (sub_nonneg.mpr ha) (sub_nonneg.mpr h2.le),
        mul_pos (sub_pos.mpr hb) (sub_pos.mpr h1)]
    unfold crossesRay
    simp [hd, hpos]
  · have hd : ¬ e.1.2 < e.2.2 := not_lt.mpr (le_of_lt (lt_of_le_of_lt hb ha))
    have hneg : (e.2.1 - e.1.1) * (p.2 - e.1.2) - (p.1 - e.1.1) * (e.2.2 - e.1.2) < 0 := by
      nlinarith [mul_pos (sub_pos.mpr ha) (sub_pos.mpr h2),
        mul_nonneg (sub_nonneg.mpr hb) (sub_nonneg.mpr h1.le)]
    unfold crossesRay
    simp [hd, hneg]
  · rw [crossesRay_false_of_nostraddle (Or.inl ⟨ha, hb⟩)]
    simp [ha, hb]

lemma shapelyContains_false_outside {poly : List Pt} {p : Pt}
    (h : outsideBBox poly p) : shapelyContains poly p = false := by
  have hcount : (polyEdges poly).countP (crossesRay p) % 2 = 0 := by
    rcases h with hR | hL | hDown | hUp
    · have hz : (polyEdges poly).countP (crossesRay p) = 0 := by
        rw [List.countP_eq_zero]
        intro e he
        have hm := polyEdges_mem he
        simp [crossesRay_false_of_right (hR _ hm.1) (hR _ hm.2)]
      rw [hz]
    · have hc : (polyEdges poly).countP (crossesRay p)
          = (polyEdges poly).countP (fun e => decide (e.1.2 > p.2) != decide (e.2.2 > p.2)) := by
        apply List.countP_congr
        intro e he
        have hm := polyEdges_mem he
        rw [crossesRay_eq_straddle_of_left (hL _ hm.1) (hL _ hm.2)]
      rw [hc]
      simpa [polyEdges] using straddle_even (fun v => decide (v.2 > p.2)) poly
    · have hz : (polyEdges poly).countP (crossesRay p) = 0 := by
        rw [List.countP_eq_zero]
        intro e he
        have hm := polyEdges_mem he
        simp [crossesRay_false_of_nostraddle
          (Or.inr ⟨(hDown _ hm.1).le, (hDown _ hm.2).le⟩)]
      rw [hz]
    · have hz : (polyEdges poly).countP (crossesRay p) = 0 := by
        rw [List.countP_eq_zero]
        intro e he
        have hm := polyEdges_mem he
        simp [crossesRay_false_of_nostraddle (Or.inl ⟨hUp _ hm.1, hUp _ hm.2⟩)]
      rw [hz]
  unfold shapelyContains
  rw [hcount]
  simp

/-! ## Attribution lemmas -/

lemma flatMap_congr_mem {α β : Type} {l : List α} {f g : α → List β}
    (h : ∀ a ∈ l, f a = g a) : l.flatMap f = l.flatMap g := by
  induction l with
  | nil => rfl
  | cons x xs ih =>
      rw [List.flatMap_cons, List.flatMap_cons, h x (List.mem_cons_self x xs),
        ih (fun a ha => h a (List.mem_cons_of_mem _ ha))]

lemma mem_matchesOf_key {s : KvtSample} {areas : List Area} {m : MatchRow}
    (hm : m ∈ matchesOf s areas) :
    m.timestamp_hour = s.timestamp_hour ∧ m.id = s.id := by
  obtain ⟨a, ha, hfa⟩ := List.mem_filterMap.mp hm
  split at hfa
  · cases hfa
    exact ⟨rfl, rfl⟩
  · cases hfa

lemma filter_flatMap_of_key {α β : Type} (key : α → ℕ × ℕ) (kf : β → ℕ × ℕ)
    (f : α → List β) (l : List α)
    (hkey : ∀ x ∈ l, ∀ b ∈ f x, kf b = key x) :
    ∀ s ∈ l, (l.map key).Nodup →
      (l.flatMap f).filter (fun b => decide (kf b = key s)) = f s := by
  induction l with
  | nil =>
      intro s hs _
      cases hs
  | cons x xs ih =>
      intro s hs hnd
      rw [List.flatMap_cons, List.filter_append]
      rw [List.map_cons, List.nodup_cons] at hnd
      rcases List.mem_cons.mp hs with hsx | hsx
      · subst hsx
        have hleft : (f s).filter (fun b => decide (kf b = key s)) = f s := by
          apply List.filter_eq_self.mpr
          intro b hb
          simp [hkey s (List.mem_cons_self s xs) b hb]
        have hright : (xs.flatMap f).filter (fun b => decide (kf b = key s)) = [] := by
          apply List.filter_eq_nil_iff.mpr
          intro b hb
          obtain ⟨y, hy, hby⟩ := List.mem_flatMap.mp hb
          have hk := hkey y (List.mem_cons_of_mem _ hy) b hby
          simp only [decide_eq_true_eq]
          intro hEq
          rw [hk] at hEq
          exact hnd.1 (hEq ▸ List.mem_map_of_mem key hy)
        rw [hleft, hright, List.append_nil]
      · have hleft : (f x).filter (fun b => decide (kf b = key s)) = [] := by
          apply List.filter_eq_nil_iff.mpr
          intro b hb
          have hk := hkey x (List.mem_cons_self x xs) b hb
          simp only [decide_eq_true_eq]
          intro hEq
          rw [hk] at hEq
          exact hnd.1 (hEq.symm ▸ List.mem_map_of_mem key hsx)
        rw [hleft, List.nil_append]
        exact ih (fun y hy b hb => hkey y (List.mem_cons_of_mem _ hy) b hb) s hsx hnd.2

lemma kvtMatches_filter {samples : List KvtSample} {areas : List Area} {s : KvtSample}
    (hnd : (samples.map sampleKey).Nodup) (hs : s ∈ samples) :
    (kvtMatches samples areas).filter
        (fun m => decide ((m.timestamp_hour, m.id) = sampleKey s)) = matchesOf s areas := by
  exact filter_flatMap_of_key sampleKey (fun m => (m.timestamp_hour, m.id))
    (fun x => matchesOf x areas) samples
    (fun x hx m hm => by
      obtain ⟨h1, h2⟩ := mem_matchesOf_key hm
      simp [sampleKey, h1, h2]) s hs hnd

lemma mem_attrRowsOf_key {s : KvtSample} {areas : List Area} {r : KvtAttr}
    (hr : r ∈ attrRowsOf s areas) :
    r.timestamp_hour = s.timestamp_hour ∧ r.id = s.id ∧ r.city_id = s.city_id := by
  simp only [attrRowsOf] at hr
  split at hr
  · rw [List.mem_singleton] at hr
    subst hr
    exact ⟨rfl, rfl, rfl⟩
  · obtain ⟨m, hm, hmr⟩ := List.mem_map.mp hr
    subst hmr
    exact ⟨rfl, rfl, rfl⟩

lemma kvtAttributed_eq_flatMap {samples : List KvtSample} {areas : List Area}
    (hnd : (samples.map sampleKey).Nodup) :
    kvtAttributed samples areas = samples.flatMap (fun s => attrRowsOf s areas) := by
  unfold kvtAttributed
  exact flatMap_congr_mem (fun s hs => by
    rw [kvtMatches_filter hnd hs]
    rfl)

lemma kvtAttributed_filter {samples : List KvtSample} {areas : List Area} {s : KvtSample}
    (hnd : (samples.map sampleKey).Nodup) (hs : s ∈ samples) :
    (kvtAttributed samples areas).filter
      (fun r => decide ((r.timestamp_hour, r.id) = sampleKey s)) = attrRowsOf s areas := by
  rw [kvtAttributed_eq_flatMap hnd]
  exact filter_flatMap_of_key sampleKey (fun r => (r.timestamp_hour, r.id))
    (fun x => attrRowsOf x areas) samples
    (fun x hx r hr => by
      obtain ⟨h1, h2, -⟩ := mem_attrRowsOf_key hr
      simp [sampleKey, h1, h2]) s hs hnd

lemma matchesOf_eq_map_filter (s : KvtSample) (areas : List Area) :
    matchesOf s areas
      = (areas.filter (fun a => poly_contains_point_kvt s a)).map
          (fun a => ⟨s.timestamp_hour, s.id, a.area_id, a.area_name⟩) := by
  induction areas with
  | nil => rfl
  | cons a as ih =>
      by_cases hc : poly_contains_point_kvt s a = true <;>
        simp only [matchesOf] at ih ⊢ <;>
        simp [List.filterMap_cons, List.filter_cons, hc, ih]

/-! ## Aggregation and distribution lemmas -/

lemma kvtAgg_of_key_mem {rows : List KvtAttr} {k : AggKey}
    (hk : k ∈ rows.map kvtKey) :
    ∃ g ∈ kvtAgg rows, kvtAggKey g = k ∧ 0 < g.kvt := by
  have hk2 : k ∈ (rows.map kvtKey).dedup := List.mem_dedup.mpr hk
  obtain ⟨r, hr, hkr⟩ := List.mem_map.mp hk
  refine ⟨⟨k.timestamp_hour, k.city_id, k.area_id, k.area_name,
      (rows.filter (fun x => decide (kvtKey x = k))).length⟩,
    List.mem_map_of_mem _ hk2, ?_, ?_⟩
  · cases k
    rfl
  · apply List.length_pos.mpr
    intro hnil
    have hmem : r ∈ rows.filter (fun x => decide (kvtKey x = k)) :=
      List.mem_filter.mpr ⟨hr, by simp [hkr]⟩
    rw [hnil] at hmem
    cases hmem

lemma mem_ordersAttributed_src {ordS : List OrderSample} {areas : List Area} {r : OrderAttr}
    (hr : r ∈ ordersAttributed ordS areas) :
    ∃ s ∈ ordS, r.timestamp_hour = s.timestamp_hour ∧ r.city_id = s.city_id := by
  simp only [ordersAttributed] at hr
  obtain ⟨s, hs, hrs⟩ := List.mem_flatMap.mp hr
  refine ⟨s, hs, ?_⟩
  split at hrs
  · rw [List.mem_singleton] at hrs
    subst hrs
    exact ⟨rfl, rfl⟩
  · obtain ⟨m, hm, hmr⟩ := List.mem_map.mp hrs
    subst hmr
    exact ⟨rfl, rfl⟩

lemma mem_ordersAgg_src {rows : List OrderAttr} {g : OrdersAggRow}
    (hg : g ∈ ordersAgg rows) :
    ∃ r ∈ rows, r.timestamp_hour = g.timestamp_hour ∧ r.city_id = g.city_id := by
  unfold ordersAgg at hg
  obtain ⟨k, hk, hkg⟩ := List.mem_map.mp hg
  have hk2 : k ∈ rows.map orderKey := List.mem_dedup.mp hk
  obtain ⟨r, hr, hrk⟩ := List.mem_map.mp hk2
  subst hkg
  refine ⟨r, hr, ?_, ?_⟩ <;> rw [← hrk] <;> rfl

lemma mem_distribute_src {aggs : List OrdersAggRow} {distr : List DistrRow} {o : DistrOut}
    (ho : o ∈ distribute aggs distr) : o.row ∈ aggs := by
  unfold distribute at ho
  obtain ⟨r, hr, hro⟩ := List.mem_map.mp ho
  subst hro
  exact hr

lemma sum_city_shares (aggs : List OrdersAggRow) (c : ℕ) (q : ℚ)
    (h : (cumPoezdok aggs c : ℚ) ≠ 0) :
    (((aggs.filter (fun r => decide (r.city_id = c))).map
        (fun r => q * (r.poezdok : ℚ) / (cumPoezdok aggs c : ℚ))).sum) = q := by
  have h1 : ((aggs.filter (fun r => decide (r.city_id = c))).map
      (fun r => q * (r.poezdok : ℚ) / (cumPoezdok aggs c : ℚ)))
      = ((aggs.filter (fun r => decide (r.city_id = c))).map
        (fun r => (q / (cumPoezdok aggs c : ℚ)) * (r.poezdok : ℚ))) := by
    apply List.map_congr_left
    intro r hr
    rw [div_mul_eq_mul_div, mul_div_assoc]
  rw [h1, List.sum_map_mul_left]
  have h2 : ((aggs.filter (fun r => decide (r.city_id = c))).map
      (fun r => (r.poezdok : ℚ))).sum = (cumPoezdok aggs c : ℚ) := by
    unfold cumPoezdok
    rw [Nat.cast_list_sum, List.map_map]
    rfl
  rw [h2, div_mul_cancel₀ q h]

lemma distribute_filter_city (aggs : List OrdersAggRow) (distr : List DistrRow) (c : ℕ) :
    (distribute aggs distr).filter (fun o => decide (o.row.city_id = c))
      = (aggs.filter (fun r => decide (r.city_id = c))).map (fun r =>
          ⟨r, cumPoezdok aggs r.city_id,
           (distrFor distr r.city_id).dolgi * (r.poezdok : ℚ)
             / (cumPoezdok aggs r.city_id : ℚ),
           (distrFor distr r.city_id).vyruchka_s_abonementov * (r.poezdok : ℚ)
             / (cumPoezdok aggs r.city_id : ℚ),
           (distrFor distr r.city_id).sum_mnogor_abon * (r.poezdok : ℚ)
             / (cumPoezdok aggs r.city_id : ℚ)⟩) := by
  unfold distribute
  rw [List.filter_map]
  rfl

lemma distribute_city_share_sum (aggs : List OrdersAggRow) (distr : List DistrRow) (c : ℕ)
    (h : (cumPoezdok aggs c : ℚ) ≠ 0) (sel : DistrRow → ℚ) (out : DistrOut → ℚ)
    (hout : ∀ r : OrdersAggRow, out ⟨r, cumPoezdok aggs r.city_id,
        (distrFor distr r.city_id).dolgi * (r.poezdok : ℚ)
          / (cumPoezdok aggs r.city_id : ℚ),
        (distrFor distr r.city_id).vyruchka_s_abonementov * (r.poezdok : ℚ)
          / (cumPoezdok aggs r.city_id : ℚ),
        (distrFor distr r.city_id).sum_mnogor_abon * (r.poezdok : ℚ)
          / (cumPoezdok aggs r.city_id : ℚ)⟩
      = sel (distrFor distr r.city_id) * (r.poezdok : ℚ)
          / (cumPoezdok aggs r.city_id : ℚ)) :
    (((distribute aggs distr).filter (fun o => decide (o.row.city_id = c))).map out).sum
      = sel (distrFor distr c) := by
  rw [distribute_filter_city, List.map_map]
  have hmc : ∀ r ∈ aggs.filter (fun r => decide (r.city_id = c)),
      (out ∘ (fun r : OrdersAggRow =>
        (⟨r, cumPoezdok aggs r.city_id,
          (distrFor distr r.city_id).dolgi * (r.poezdok : ℚ)
            / (cumPoezdok aggs r.city_id : ℚ),
          (distrFor distr r.city_id).vyruchka_s_abonementov * (r.poezdok : ℚ)
            / (cumPoezdok aggs r.city_id : ℚ),
          (distrFor distr r.city_id).sum_mnogor_abon * (r.poezdok : ℚ)
            / (cumPoezdok aggs r.city_id : ℚ)⟩ : DistrOut))) r
      = sel (distrFor distr c) * (r.poezdok : ℚ) / (cumPoezdok aggs c : ℚ) := by
    intro r hr
    have hc : r.city_id = c := by
      have := (List.mem_filter.mp hr).2
      simpa using this
    simp only [Function.comp]
    rw [hout r, hc]
  rw [List.map_congr_left hmc, sum_city_shares aggs c _ h]

lemma sum_map_mul_div {α : Type} (l : List α) (f : α → ℕ) (q cum : ℚ) :
    (l.map (fun r => q * (f r : ℚ) / cum)).sum = q * ((l.map f).sum : ℚ) / cum := by
  have h1 : (l.map (fun r => q * (f r : ℚ) / cum))
      = (l.map (fun r => (q / cum) * (f r : ℚ))) := by
    apply List.map_congr_left
    intro r _
    rw [div_mul_eq_mul_div, mul_div_assoc]
  rw [h1, List.sum_map_mul_left, Nat.cast_list_sum, List.map_map, div_mul_eq_mul_div]
  rfl

lemma distribute_filter_bucket_city (aggs : List OrdersAggRow) (distr : List DistrRow)
    (b c : ℕ) :
    (distribute aggs distr).filter
        (fun o => decide (o.row.timestamp_hour = b ∧ o.row.city_id = c))
      = (aggs.filter (fun r => decide (r.timestamp_hour = b ∧ r.city_id = c))).map (fun r =>
          ⟨r, cumPoezdok aggs r.city_id,
           (distrFor distr r.city_id).dolgi * (r.poezdok : ℚ)
             / (cumPoezdok aggs r.city_id : ℚ),
           (distrFor distr r.city_id).vyruchka_s_abonementov * (r.poezdok : ℚ)
             / (cumPoezdok aggs r.city_id : ℚ),
           (distrFor distr r.city_id).sum_mnogor_abon * (r.poezdok : ℚ)
             / (cumPoezdok aggs r.city_id : ℚ)⟩) := by
  unfold distribute
  rw [List.filter_map]
  rfl

lemma distribute_bucket_city_share_sum (aggs : List OrdersAggRow) (distr : List DistrRow)
    (b c : ℕ) (sel : DistrRow → ℚ) (out : DistrOut → ℚ)
    (hout : ∀ r : OrdersAggRow, out ⟨r, cumPoezdok aggs r.city_id,
        (distrFor distr r.city_id).dolgi * (r.poezdok : ℚ)
          / (cumPoezdok aggs r.city_id : ℚ),
        (distrFor distr r.city_id).vyruchka_s_abonementov * (r.poezdok : ℚ)
          / (cumPoezdok aggs r.city_id : ℚ),
        (distrFor distr r.city_id).sum_mnogor_abon * (r.poezdok : ℚ)
          / (cumPoezdok aggs r.city_id : ℚ)⟩
      = sel (distrFor distr r.city_id) * (r.poezdok : ℚ)
          / (cumPoezdok aggs r.city_id : ℚ)) :
    (((distribute aggs distr).filter
        (fun o => decide (o.row.timestamp_hour = b ∧ o.row.city_id = c))).map out).sum
      = sel (distrFor distr c)
        * (((aggs.filter (fun r => decide (r.timestamp_hour = b ∧ r.city_id = c))).map
            (fun r => r.poezdok)).sum : ℚ) / (cumPoezdok aggs c : ℚ) := by
  rw [distribute_filter_bucket_city, List.map_map]
  have hmc : ∀ r ∈ aggs.filter (fun r => decide (r.timestamp_hour = b ∧ r.city_id = c)),
      (out ∘ (fun r : OrdersAggRow =>
        (⟨r, cumPoezdok aggs r.city_id,
          (distrFor distr r.city_id).dolgi * (r.poezdok : ℚ)
            / (cumPoezdok aggs r.city_id : ℚ),
          (distrFor distr r.city_id).vyruchka_s_abonementov * (r.poezdok : ℚ)
            / (cumPoezdok aggs r.city_id : ℚ),
          (distrFor distr r.city_id).sum_mnogor_abon * (r.poezdok : ℚ)
            / (cumPoezdok aggs r.city_id : ℚ)⟩ : DistrOut))) r
      = sel (distrFor distr c) * (r.poezdok : ℚ) / (cumPoezdok aggs c : ℚ) := by
    intro r hr
    have hc : r.city_id = c := by
      have := (List.mem_filter.mp hr).2
      simp only [decide_eq_true_eq] at this
      exact this.2
    simp only [Function.comp]
    rw [hout r, hc]
  rw [List.map_congr_left hmc, sum_map_mul_div, Nat.cast_list_sum, List.map_map]
  rfl

lemma distributeDaily_filter_day_city (aggs : List DailyOrdersRow)
    (distr : List DailyDistrRow) (d c : ℕ) :
    (distributeDaily aggs distr).filter
        (fun o => decide (o.row.start_day = d ∧ o.row.city_id = c))
      = (aggs.filter (fun r => decide (r.start_day = d ∧ r.city_id = c))).map (fun r =>
          ⟨r, cumPoezdokDaily aggs r.city_id,
           (distrDailyFor distr r.start_day r.city_id).dolgi * (r.poezdok : ℚ)
             / (cumPoezdokDaily aggs r.city_id : ℚ),
           (distrDailyFor distr r.start_day r.city_id).vyruchka_s_abonementov
             * (r.poezdok : ℚ) / (cumPoezdokDaily aggs r.city_id : ℚ),
           (distrDailyFor distr r.start_day r.city_id).sum_mnogor_abon * (r.poezdok : ℚ)
             / (cumPoezdokDaily aggs r.city_id : ℚ)⟩) := by
  unfold distributeDaily
  rw [List.filter_map]
  rfl

lemma distributeDaily_day_city_share_sum (aggs : List DailyOrdersRow)
    (distr : List DailyDistrRow) (d c : ℕ) (sel : DailyDistrRow → ℚ)
    (out : DailyDistrOut → ℚ)
    (hout : ∀ r : DailyOrdersRow, out ⟨r, cumPoezdokDaily aggs r.city_id,
        (distrDailyFor distr r.start_day r.city_id).dolgi * (r.poezdok : ℚ)
          / (cumPoezdokDaily aggs r.city_id : ℚ),
        (distrDailyFor distr r.start_day r.city_id).vyruchka_s_abonementov
          * (r.poezdok : ℚ) / (cumPoezdokDaily aggs r.city_id : ℚ),
        (distrDailyFor distr r.start_day r.city_id).sum_mnogor_abon * (r.poezdok : ℚ)
          / (cumPoezdokDaily aggs r.city_id : ℚ)⟩
      = sel (distrDailyFor distr r.start_day r.city_id) * (r.poezdok : ℚ)
          / (cumPoezdokDaily aggs r.city_id : ℚ)) :
    (((distributeDaily aggs distr).filter
        (fun o => decide (o.row.start_day = d ∧ o.row.city_id = c))).map out).sum
      = sel (distrDailyFor distr d c)
        * (((aggs.filter (fun r => decide (r.start_day = d ∧ r.city_id = c))).map
            (fun r => r.poezdok)).sum : ℚ) / (cumPoezdokDaily aggs c : ℚ) := by
  rw [distributeDaily_filter_day_city, List.map_map]
  have hmc : ∀ r ∈ aggs.filter (fun r => decide (r.start_day = d ∧ r.city_id = c)),
      (out ∘ (fun r : DailyOrdersRow =>
        (⟨r, cumPoezdokDaily aggs r.city_id,
          (distrDailyFor distr r.start_day r.city_id).dolgi * (r.poezdok : ℚ)
            / (cumPoezdokDaily aggs r.city_id : ℚ),
          (distrDailyFor distr r.start_day r.city_id).vyruchka_s_abonementov
            * (r.poezdok : ℚ) / (cumPoezdokDaily aggs r.city_id : ℚ),
          (distrDailyFor distr r.start_day r.city_id).sum_mnogor_abon * (r.poezdok : ℚ)
            / (cumPoezdokDaily aggs r.city_id : ℚ)⟩ : DailyDistrOut))) r
      = sel (distrDailyFor distr d c) * (r.poezdok : ℚ)
          / (cumPoezdokDaily aggs c : ℚ) := by
    intro r hr
    have hdc : r.start_day = d ∧ r.city_id = c := by
      have := (List.mem_filter.mp hr).2
      simp only [decide_eq_true_eq] at this
      exact this
    simp only [Function.comp]
    rw [hout r, hdc.1, hdc.2]
  rw [List.map_congr_left hmc, sum_map_mul_div, Nat.cast_list_sum, List.map_map]
  rfl

/-! ## Concrete containment facts -/

lemma exContains_sample_area1 : poly_contains_point_kvt exSample exArea1 = true := by
  norm_num [poly_contains_point_kvt, shapelyContains, onBoundary, polyEdges, exSample,
    exArea1, exSquare, List.rotate, onSeg, cross2, crossesRay, List.countP, List.countP.go]

lemma exContains_sample_area2 : poly_contains_point_kvt exSample exArea2 = true := by
  norm_num [poly_contains_point_kvt, shapelyContains, onBoundary, polyEdges, exSample,
    exArea2, exSquare3, List.rotate, onSeg, cross2, crossesRay, List.countP, List.countP.go]

lemma exContains_malformed_area7 : poly_contains_point_kvt exMalformed exArea7 = true := by
  norm_num [poly_contains_point_kvt, shapelyContains, onBoundary, polyEdges, exMalformed,
    exArea7, exFarPoly, List.rotate, onSeg, cross2, crossesRay, List.countP, List.countP.go]

/-! ## Claim C3 -/

/-- Claim C3 (counterexample): the claim asserts boundary-inclusive
containment, but the containment test is interior-only: the point
(0, 0) is a vertex of the square zone polygon exSquare, yet
shapelyContains reports it as not contained. -/
theorem C3_counterexample :
    ((0 : ℚ), (0 : ℚ)) ∈ exSquare ∧ shapelyContains exSquare (0, 0) = false := by
  constructor
  · simp [exSquare]
  · norm_num [shapelyContains, onBoundary, polyEdges, exSquare, List.rotate, onSeg,
      cross2, crossesRay, List.countP, List.countP.go]

/-- Claim C3 (amended): the point-in-polygon test used by the zone
attributor is boundary-EXCLUSIVE (shapely Polygon.contains tests the
interior): every boundary point, vertices included, is NOT contained;
and a point strictly outside the polygon's bounding box is never
contained, as the claim states. -/
theorem C3_amended_boundary_exclusive (poly : List Pt) (p : Pt) :
    (onBoundary poly p = true → shapelyContains poly p = false)
    ∧ (p ∈ poly → shapelyContains poly p = false)
    ∧ (outsideBBox poly p → shapelyContains poly p = false) := by
  refine ⟨?_, ?_, shapelyContains_false_outside⟩
  · intro hb
    unfold shapelyContains
    rw [hb]
    rfl
  · intro hp
    unfold shapelyContains
    rw [onBoundary_of_mem hp]
    rfl

/-- Witness for C3: the amended theorem applied to the square zone at
the vertex (0, 0) and at the far-away point (20, 20). -/
theorem C3_witness :
    ((0 : ℚ), (0 : ℚ)) ∈ exSquare ∧ outsideBBox exSquare (20, 20)
    ∧ shapelyContains exSquare (0, 0) = false
    ∧ shapelyContains exSquare (20, 20) = false := by
  have h2 : ((0 : ℚ), (0 : ℚ)) ∈ exSquare := by simp [exSquare]
  have h3 : outsideBBox exSquare (20, 20) := by
    unfold outsideBBox
    left
    intro v hv
    simp only [exSquare, List.mem_cons, List.not_mem_nil, or_false] at hv
    rcases hv with rfl | rfl | rfl | rfl <;> norm_num
  exact ⟨h2, h3, (C3_amended_boundary_exclusive exSquare (0, 0)).2.1 h2,
    (C3_amended_boundary_exclusive exSquare (20, 20)).2.2 h3⟩

/-! ## Claim C2 -/

/-- Claim C2 (counterexample): the sample at (1, 1) lies inside both
overlapping zones Z1 and Z2; the left merge back duplicates it into
TWO attribution rows instead of picking the first containing zone,
and the aggregation then counts the one sample once in EACH zone. -/
theorem C2_counterexample :
    kvtAttributed [exSample] [exArea1, exArea2]
        = [⟨0, 1, 1, 1, "Z1"⟩, ⟨0, 1, 1, 2, "Z2"⟩]
    ∧ kvtAgg (kvtAttributed [exSample] [exArea1, exArea2])
        = [⟨0, 1, 1, "Z1", 1⟩, ⟨0, 1, 2, "Z2", 1⟩] := by
  have h1 : kvtAttributed [exSample] [exArea1, exArea2]
      = [⟨0, 1, 1, 1, "Z1"⟩, ⟨0, 1, 1, 2, "Z2"⟩] := by
    have hm : kvtMatches [exSample] [exArea1, exArea2]
        = [⟨0, 1, 1, "Z1"⟩, ⟨0, 1, 2, "Z2"⟩] := by
      simp only [kvtMatches, matchesOf, List.flatMap_cons, List.flatMap_nil,
        List.filterMap_cons, List.filterMap_nil, exContains_sample_area1,
        exContains_sample_area2, List.append_nil]
      simp [exSample, exArea1, exArea2]
    simp only [kvtAttributed, hm]
    simp [sampleKey, exSample]
  refine ⟨h1, ?_⟩
  rw [h1]
  decide

/-- Claim C2 (amended): with key-unique samples, the attribution rows
of a sample are the unassigned row when no polygon contains it, and
otherwise ONE ROW PER CONTAINING ZONE in catalog order: a sample whose
point lies in k overlapping zones is duplicated into k rows by the
left merge and counted in each zone's aggregate, not attributed to a
single zone. -/
theorem C2_amended_one_row_per_containing_zone
    (samples : List KvtSample) (areas : List Area) (s : KvtSample)
    (hnd : (samples.map sampleKey).Nodup) (hs : s ∈ samples) :
    (kvtAttributed samples areas).filter
        (fun r => decide ((r.timestamp_hour, r.id) = sampleKey s))
      = (if (areas.filter (fun a => poly_contains_point_kvt s a)).isEmpty
         then [⟨s.timestamp_hour, s.id, s.city_id, 0, "0"⟩]
         else (areas.filter (fun a => poly_contains_point_kvt s a)).map
            (fun a => ⟨s.timestamp_hour, s.id, s.city_id, a.area_id, a.area_name⟩)) := by
  rw [kvtAttributed_filter hnd hs]
  unfold attrRowsOf
  rw [matchesOf_eq_map_filter]
  by_cases hc : (areas.filter (fun a => poly_contains_point_kvt s a)).isEmpty = true
  · have hmapc : ((areas.filter (fun a => poly_contains_point_kvt s a)).map
        (fun a => (⟨s.timestamp_hour, s.id, a.area_id, a.area_name⟩ : MatchRow))).isEmpty
          = true := by
      rw [List.isEmpty_iff] at hc ⊢
      rw [hc]
      rfl
    rw [if_pos hmapc, if_pos hc]
  · have hmapc : ¬ ((areas.filter (fun a => poly_contains_point_kvt s a)).map
        (fun a => (⟨s.timestamp_hour, s.id, a.area_id, a.area_name⟩ : MatchRow))).isEmpty
          = true := by
      intro hmap
      apply hc
      rw [List.isEmpty_iff] at hmap ⊢
      exact List.map_eq_nil_iff.mp hmap
    rw [if_neg hmapc, if_neg hc, List.map_map]
    rfl

/-- Witness for C2: the amended theorem applied to the overlap
scenario with one sample inside two zones. -/
theorem C2_witness :
    (([exSample] : List KvtSample).map sampleKey).Nodup
    ∧ (kvtAttributed [exSample] [exArea1, exArea2]).filter
        (fun r => decide ((r.timestamp_hour, r.id) = sampleKey exSample))
      = (if (([exArea1, exArea2].filter
            (fun a => poly_contains_point_kvt exSample a)).isEmpty)
         then [⟨exSample.timestamp_hour, exSample.id, exSample.city_id, 0, "0"⟩]
         else ([exArea1, exArea2].filter
            (fun a => poly_contains_point_kvt exSample a)).map
              (fun a => ⟨exSample.timestamp_hour, exSample.id, exSample.city_id,
                a.area_id, a.area_name⟩)) :=
  ⟨by simp, C2_amended_one_row_per_containing_zone [exSample] [exArea1, exArea2]
    exSample (by simp) (List.mem_singleton.mpr rfl)⟩

/-! ## Claim C8 -/

/-- Claim C8: a sample whose point lies inside no catalog polygon is
attributed to the unassigned zone with id 0 and name "0", and appears
under that key in the kvt aggregates with a positive count. -/
theorem C8_unassigned_fallback
    (samples : List KvtSample) (areas : List Area) (s : KvtSample)
    (hnd : (samples.map sampleKey).Nodup) (hs : s ∈ samples)
    (hnc : ∀ a ∈ areas, poly_contains_point_kvt s a = false) :
    (⟨s.timestamp_hour, s.id, s.city_id, 0, "0"⟩ : KvtAttr) ∈ kvtAttributed samples areas
    ∧ ∃ g ∈ kvtAgg (kvtAttributed samples areas),
        g.timestamp_hour = s.timestamp_hour ∧ g.city_id = s.city_id
        ∧ g.area_id = 0 ∧ g.area_name = "0" ∧ 0 < g.kvt := by
  have hrows : attrRowsOf s areas = [⟨s.timestamp_hour, s.id, s.city_id, 0, "0"⟩] := by
    unfold attrRowsOf
    rw [matchesOf_eq_map_filter]
    have hfe : areas.filter (fun a => poly_contains_point_kvt s a) = [] := by
      apply List.filter_eq_nil_iff.mpr
      intro a ha
      simp [hnc a ha]
    rw [hfe]
    rfl
  have hmem : (⟨s.timestamp_hour, s.id, s.city_id, 0, "0"⟩ : KvtAttr)
      ∈ kvtAttributed samples areas := by
    rw [kvtAttributed_eq_flatMap hnd]
    exact List.mem_flatMap.mpr ⟨s, hs, by rw [hrows]; exact List.mem_singleton.mpr rfl⟩
  refine ⟨hmem, ?_⟩
  have hkey : (⟨s.timestamp_hour, s.city_id, 0, "0"⟩ : AggKey)
      ∈ (kvtAttributed samples areas).map kvtKey :=
    List.mem_map.mpr ⟨_, hmem, rfl⟩
  obtain ⟨g, hg, hgk, hgpos⟩ := kvtAgg_of_key_mem hkey
  exact ⟨g, hg, congrArg AggKey.timestamp_hour hgk, congrArg AggKey.city_id hgk,
    congrArg AggKey.area_id hgk, congrArg AggKey.area_name hgk, hgpos⟩

/-- Witness for C8: the sample at (50, 50) lies outside the only
catalog zone and lands in zone 0 with name "0". -/
theorem C8_witness :
    poly_contains_point_kvt exFarSample exArea1 = false
    ∧ (⟨0, 3, 1, 0, "0"⟩ : KvtAttr) ∈ kvtAttributed [exFarSample] [exArea1]
    ∧ ∃ g ∈ kvtAgg (kvtAttributed [exFarSample] [exArea1]),
        g.timestamp_hour = 0 ∧ g.city_id = 1
        ∧ g.area_id = 0 ∧ g.area_name = "0" ∧ 0 < g.kvt := by
  have hout : outsideBBox exArea1.area_poly (exFarSample.g_lat, exFarSample.g_lng) := by
    left
    intro v hv
    simp only [exArea1, exSquare, List.mem_cons, List.not_mem_nil, or_false] at hv
    rcases hv with rfl | rfl | rfl | rfl <;> norm_num [exFarSample]
  have hnc1 : poly_contains_point_kvt exFarSample exArea1 = false := by
    unfold poly_contains_point_kvt
    exact shapelyContains_false_outside hout
  have hnc : ∀ a ∈ [exArea1], poly_contains_point_kvt exFarSample a = false := by
    intro a ha
    rw [List.mem_singleton] at ha
    subst ha
    exact hnc1
  have h := C8_unassigned_fallback [exFarSample] [exArea1] exFarSample (by simp)
    (List.mem_singleton.mpr rfl) hnc
  exact ⟨hnc1, h.1, h.2⟩

/-! ## Claim C9 -/

/-- Claim C9 (counterexample): the claim asserts malformed coordinates
fail with InvalidCoordinateError, but no validation exists: the sample
with latitude 200 (outside [-90, 90]) is processed silently, its
containment is computed against the catalog polygons, and it is even
attributed to zone 7. -/
theorem C9_counterexample :
    ((90 : ℚ) < 200)
    ∧ kvtAttributed [exMalformed] [exArea7] = [⟨0, 9, 1, 7, "Z7"⟩] := by
  refine ⟨by norm_num, ?_⟩
  have hm : kvtMatches [exMalformed] [exArea7] = [⟨0, 9, 7, "Z7"⟩] := by
    simp only [kvtMatches, matchesOf, List.flatMap_cons, List.flatMap_nil,
      List.filterMap_cons, List.filterMap_nil, exContains_malformed_area7,
      List.append_nil]
    simp [exMalformed, exArea7]
  simp only [kvtAttributed, hm]
  simp [sampleKey, exMalformed]

/-- Claim C9 (amended): the zone attributor performs no coordinate
validation and raises no error on any input: every sample, whether its
coordinates lie in [-90, 90] x [-180, 180] or not, flows through the
same containment tests and yields at least one attribution row. -/
theorem C9_amended_no_validation
    (samples : List KvtSample) (areas : List Area) (s : KvtSample) (hs : s ∈ samples) :
    ∃ r ∈ kvtAttributed samples areas,
      r.timestamp_hour = s.timestamp_hour ∧ r.id = s.id ∧ r.city_id = s.city_id := by
  by_cases he : ((kvtMatches samples areas).filter
      (fun m => decide ((m.timestamp_hour, m.id) = sampleKey s))).isEmpty = true
  · refine ⟨⟨s.timestamp_hour, s.id, s.city_id, 0, "0"⟩, ?_, rfl, rfl, rfl⟩
    unfold kvtAttributed
    exact List.mem_flatMap.mpr ⟨s, hs, by rw [if_pos he]; exact List.mem_singleton.mpr rfl⟩
  · obtain ⟨m, hm⟩ : ∃ m, m ∈ (kvtMatches samples areas).filter
        (fun x => decide ((x.timestamp_hour, x.id) = sampleKey s)) := by
      rcases hlist : (kvtMatches samples areas).filter
          (fun x => decide ((x.timestamp_hour, x.id) = sampleKey s)) with _ | ⟨m, rest⟩
      · rw [hlist] at he
        simp at he
      · exact ⟨m, by rw [hlist]; exact List.mem_cons_self _ _⟩
    refine ⟨⟨s.timestamp_hour, s.id, s.city_id, m.area_id, m.area_name⟩, ?_, rfl, rfl, rfl⟩
    unfold kvtAttributed
    exact List.mem_flatMap.mpr ⟨s, hs, by rw [if_neg he]; exact List.mem_map_of_mem _ hm⟩

/-- Witness for C9: the amended theorem applied to the batch holding
only the malformed sample with latitude 200. -/
theorem C9_witness :
    exMalformed ∈ [exMalformed]
    ∧ ∃ r ∈ kvtAttributed [exMalformed] [exArea7],
        r.timestamp_hour = exMalformed.timestamp_hour ∧ r.id = exMalformed.id
        ∧ r.city_id = exMalformed.city_id :=
  ⟨List.mem_singleton.mpr rfl,
   C9_amended_no_validation [exMalformed] [exArea7] exMalformed
     (List.mem_singleton.mpr rfl)⟩

/-! ## Claim C1 -/

/-- Claim C1 (counterexample): with one city whose rides fall in two
hour buckets (one ride each) and a city-level debt total of 10, the
sum of zone debt shares over the rows of the single (bucket 0, city 1)
— a bucket with rides — is 5, not the city-level total 10: cum_poezdok
is grouped by city only, across ALL buckets of the window, so the
per-(bucket, city) sums are not conserved. -/
theorem C1_counterexample :
    (((distribute exAggsTwoBuckets exDistr).filter
        (fun o => decide (o.row.timestamp_hour = 0 ∧ o.row.city_id = 1))).map
          (fun o => o.dolgi_res)).sum = 5
    ∧ (distrFor exDistr 1).dolgi = 10
    ∧ ((5 : ℚ) ≠ 10)
    ∧ 0 < (((distribute exAggsTwoBuckets exDistr).filter
        (fun o => decide (o.row.timestamp_hour = 0 ∧ o.row.city_id = 1))).map
          (fun o => o.row.poezdok)).sum := by
  refine ⟨?_, by norm_num [distrFor, exDistr], by norm_num, ?_⟩ <;>
    norm_num [distribute, distrFor, cumPoezdok, exAggsTwoBuckets, exDistr]

/-- Claim C1 (amended): for every (bucket, city), the sum of each
apportioned share over that (bucket, city)'s zones equals the
corresponding distribution-input total scaled by the fraction
(bucket-city ride count / the city's whole-window ride count), because
cum_poezdok is grouped by city only, across all buckets of the window,
at BOTH grains.  At hourly grain the total being apportioned is the
city-level total; at daily grain it is the (start_day, city) total.
Exact per-(bucket, city) conservation therefore holds precisely when
the bucket carries all of the city's window rides; in the hourly
engine, whose distribution input is keyed by city alone, the sum over
ALL of a city's rows additionally recovers the city total exactly. -/
theorem C1_amended_scaled_conservation
    (aggs : List OrdersAggRow) (distr : List DistrRow)
    (daggs : List DailyOrdersRow) (ddistr : List DailyDistrRow)
    (b c d cd : ℕ) (h : cumPoezdok aggs c ≠ 0) :
    ((((distribute aggs distr).filter
        (fun o => decide (o.row.timestamp_hour = b ∧ o.row.city_id = c))).map
          (fun o => o.dolgi_res)).sum
      = (distrFor distr c).dolgi
        * (((aggs.filter (fun r => decide (r.timestamp_hour = b ∧ r.city_id = c))).map
            (fun r => r.poezdok)).sum : ℚ) / (cumPoezdok aggs c : ℚ)
     ∧ (((distribute aggs distr).filter
        (fun o => decide (o.row.timestamp_hour = b ∧ o.row.city_id = c))).map
          (fun o => o.vyruchka_res)).sum
      = (distrFor distr c).vyruchka_s_abonementov
        * (((aggs.filter (fun r => decide (r.timestamp_hour = b ∧ r.city_id = c))).map
            (fun r => r.poezdok)).sum : ℚ) / (cumPoezdok aggs c : ℚ)
     ∧ (((distribute aggs distr).filter
        (fun o => decide (o.row.timestamp_hour = b ∧ o.row.city_id = c))).map
          (fun o => o.mnogor_res)).sum
      = (distrFor distr c).sum_mnogor_abon
        * (((aggs.filter (fun r => decide (r.timestamp_hour = b ∧ r.city_id = c))).map
            (fun r => r.poezdok)).sum : ℚ) / (cumPoezdok aggs c : ℚ))
    ∧ ((((distribute aggs distr).filter (fun o => decide (o.row.city_id = c))).map
          (fun o => o.dolgi_res)).sum = (distrFor distr c).dolgi
     ∧ (((distribute aggs distr).filter (fun o => decide (o.row.city_id = c))).map
          (fun o => o.vyruchka_res)).sum = (distrFor distr c).vyruchka_s_abonementov
     ∧ (((distribute aggs distr).filter (fun o => decide (o.row.city_id = c))).map
          (fun o => o.mnogor_res)).sum = (distrFor distr c).sum_mnogor_abon)
    ∧ ((((distributeDaily daggs ddistr).filter
        (fun o => decide (o.row.start_day = d ∧ o.row.city_id = cd))).map
          (fun o => o.dolgi_res)).sum
      = (distrDailyFor ddistr d cd).dolgi
        * (((daggs.filter (fun r => decide (r.start_day = d ∧ r.city_id = cd))).map
            (fun r => r.poezdok)).sum : ℚ) / (cumPoezdokDaily daggs cd : ℚ)
     ∧ (((distributeDaily daggs ddistr).filter
        (fun o => decide (o.row.start_day = d ∧ o.row.city_id = cd))).map
          (fun o => o.vyruchka_res)).sum
      = (distrDailyFor ddistr d cd).vyruchka_s_abonementov
        * (((daggs.filter (fun r => decide (r.start_day = d ∧ r.city_id = cd))).map
            (fun r => r.poezdok)).sum : ℚ) / (cumPoezdokDaily daggs cd : ℚ)
     ∧ (((distributeDaily daggs ddistr).filter
        (fun o => decide (o.row.start_day = d ∧ o.row.city_id = cd))).map
          (fun o => o.mnogor_res)).sum
      = (distrDailyFor ddistr d cd).sum_mnogor_abon
        * (((daggs.filter (fun r => decide (r.start_day = d ∧ r.city_id = cd))).map
            (fun r => r.poezdok)).sum : ℚ) / (cumPoezdokDaily daggs cd : ℚ)) := by
  have hq : (cumPoezdok aggs c : ℚ) ≠ 0 := Nat.cast_ne_zero.mpr h
  refine ⟨⟨?_, ?_, ?_⟩, ⟨?_, ?_, ?_⟩, ⟨?_, ?_, ?_⟩⟩
  · exact distribute_bucket_city_share_sum aggs distr b c (fun x => x.dolgi)
      (fun o => o.dolgi_res) (fun r => rfl)
  · exact distribute_bucket_city_share_sum aggs distr b c
      (fun x => x.vyruchka_s_abonementov) (fun o => o.vyruchka_res) (fun r => rfl)
  · exact distribute_bucket_city_share_sum aggs distr b c (fun x => x.sum_mnogor_abon)
      (fun o => o.mnogor_res) (fun r => rfl)
  · exact distribute_city_share_sum aggs distr c hq (fun x => x.dolgi)
      (fun o => o.dolgi_res) (fun r => rfl)
  · exact distribute_city_share_sum aggs distr c hq (fun x => x.vyruchka_s_abonementov)
      (fun o => o.vyruchka_res) (fun r => rfl)
  · exact distribute_city_share_sum aggs distr c hq (fun x => x.sum_mnogor_abon)
      (fun o => o.mnogor_res) (fun r => rfl)
  · exact distributeDaily_day_city_share_sum daggs ddistr d cd (fun x => x.dolgi)
      (fun o => o.dolgi_res) (fun r => rfl)
  · exact distributeDaily_day_city_share_sum daggs ddistr d cd
      (fun x => x.vyruchka_s_abonementov) (fun o => o.vyruchka_res) (fun r => rfl)
  · exact distributeDaily_day_city_share_sum daggs ddistr d cd
      (fun x => x.sum_mnogor_abon) (fun o => o.mnogor_res) (fun r => rfl)

/-- Witness for C1: the amended theorem applied to city 1 with one
ride in each of two hour buckets (hourly engine, city debt 10) and one
ride on each of two window days (daily engine, day debts 10 and 0).
The extra conjuncts evaluate the daily engine concretely: day 0's
share sum is 10 * 1/2 = 5 against the day total 10, and the city's
whole-window daily share sum is 5 against the summed day totals 10,
so neither per-bucket nor per-city conservation holds at daily grain. -/
theorem C1_witness :
    cumPoezdok exAggsTwoBuckets 1 ≠ 0
    ∧ ((((distribute exAggsTwoBuckets exDistr).filter
        (fun o => decide (o.row.timestamp_hour = 0 ∧ o.row.city_id = 1))).map
          (fun o => o.dolgi_res)).sum
      = (distrFor exDistr 1).dolgi
        * (((exAggsTwoBuckets.filter
              (fun r => decide (r.timestamp_hour = 0 ∧ r.city_id = 1))).map
            (fun r => r.poezdok)).sum : ℚ) / (cumPoezdok exAggsTwoBuckets 1 : ℚ)
     ∧ (((distribute exAggsTwoBuckets exDistr).filter
        (fun o => decide (o.row.timestamp_hour = 0 ∧ o.row.city_id = 1))).map
          (fun o => o.vyruchka_res)).sum
      = (distrFor exDistr 1).vyruchka_s_abonementov
        * (((exAggsTwoBuckets.filter
              (fun r => decide (r.timestamp_hour = 0 ∧ r.city_id = 1))).map
            (fun r => r.poezdok)).sum : ℚ) / (cumPoezdok exAggsTwoBuckets 1 : ℚ)
     ∧ (((distribute exAggsTwoBuckets exDistr).filter
        (fun o => decide (o.row.timestamp_hour = 0 ∧ o.row.city_id = 1))).map
          (fun o => o.mnogor_res)).sum
      = (distrFor exDistr 1).sum_mnogor_abon
        * (((exAggsTwoBuckets.filter
              (fun r => decide (r.timestamp_hour = 0 ∧ r.city_id = 1))).map
            (fun r => r.poezdok)).sum : ℚ) / (cumPoezdok exAggsTwoBuckets 1 : ℚ))
    ∧ ((((distribute exAggsTwoBuckets exDistr).filter
          (fun o => decide (o.row.city_id = 1))).map
            (fun o => o.dolgi_res)).sum = (distrFor exDistr 1).dolgi
     ∧ (((distribute exAggsTwoBuckets exDistr).filter
          (fun o => decide (o.row.city_id = 1))).map
            (fun o => o.vyruchka_res)).sum = (distrFor exDistr 1).vyruchka_s_abonementov
     ∧ (((distribute exAggsTwoBuckets exDistr).filter
          (fun o => decide (o.row.city_id = 1))).map
            (fun o => o.mnogor_res)).sum = (distrFor exDistr 1).sum_mnogor_abon)
    ∧ ((((distributeDaily exDailyAggs exDailyDistr).filter
        (fun o => decide (o.row.start_day = 0 ∧ o.row.city_id = 1))).map
          (fun o => o.dolgi_res)).sum
      = (distrDailyFor exDailyDistr 0 1).dolgi
        * (((exDailyAggs.filter
              (fun r => decide (r.start_day = 0 ∧ r.city_id = 1))).map
            (fun r => r.poezdok)).sum : ℚ) / (cumPoezdokDaily exDailyAggs 1 : ℚ)
     ∧ (((distributeDaily exDailyAggs exDailyDistr).filter
        (fun o => decide (o.row.start_day = 0 ∧ o.row.city_id = 1))).map
          (fun o => o.vyruchka_res)).sum
      = (distrDailyFor exDailyDistr 0 1).vyruchka_s_abonementov
        * (((exDailyAggs.filter
              (fun r => decide (r.start_day = 0 ∧ r.city_id = 1))).map
            (fun r => r.poezdok)).sum : ℚ) / (cumPoezdokDaily exDailyAggs 1 : ℚ)
     ∧ (((distributeDaily exDailyAggs exDailyDistr).filter
        (fun o => decide (o.row.start_day = 0 ∧ o.row.city_id = 1))).map
          (fun o => o.mnogor_res)).sum
      = (distrDailyFor exDailyDistr 0 1).sum_mnogor_abon
        * (((exDailyAggs.filter
              (fun r => decide (r.start_day = 0 ∧ r.city_id = 1))).map
            (fun r => r.poezdok)).sum : ℚ) / (cumPoezdokDaily exDailyAggs 1 : ℚ))
    ∧ (((distributeDaily exDailyAggs exDailyDistr).filter
        (fun o => decide (o.row.start_day = 0 ∧ o.row.city_id = 1))).map
          (fun o => o.dolgi_res)).sum = 5
    ∧ (distrDailyFor exDailyDistr 0 1).dolgi = 10
    ∧ (((distributeDaily exDailyAggs exDailyDistr).filter
        (fun o => decide (o.row.city_id = 1))).map
          (fun o => o.dolgi_res)).sum = 5
    ∧ (distrDailyFor exDailyDistr 0 1).dolgi
        + (distrDailyFor exDailyDistr 1 1).dolgi = 10 := by
  have h : cumPoezdok exAggsTwoBuckets 1 ≠ 0 := by
    norm_num [cumPoezdok, exAggsTwoBuckets]
  refine ⟨h, ?_, ?_, ?_, ?_⟩
  · exact (C1_amended_scaled_conservation exAggsTwoBuckets exDistr exDailyAggs
      exDailyDistr 0 1 0 1 h).1
  · exact (C1_amended_scaled_conservation exAggsTwoBuckets exDistr exDailyAggs
      exDailyDistr 0 1 0 1 h).2.1
  · exact (C1_amended_scaled_conservation exAggsTwoBuckets exDistr exDailyAggs
      exDailyDistr 0 1 0 1 h).2.2
  · refine ⟨?_, by norm_num [distrDailyFor, exDailyDistr], ?_,
      by norm_num [distrDailyFor, exDailyDistr]⟩ <;>
      norm_num [distributeDaily, distrDailyFor, cumPoezdokDaily, exDailyAggs, exDailyDistr]

/-! ## Claim C5 -/

/-- Claim C5: a (bucket, city) with zero rides produces shares of
exactly 0 for all of its zones in the merged result: with no ride
aggregate to join, every such output row is filled with zeros, and no
division-by-zero NaN can arise since every existing ride-aggregate row
has a positive ride count. -/
theorem C5_zero_ride_zero_shares (kvtS : List KvtSample) (ordS : List OrderSample)
    (areas : List Area) (distr : List DistrRow) (b c : ℕ)
    (h : ∀ s ∈ ordS, ¬ (s.timestamp_hour = b ∧ s.city_id = c)) :
    ∀ r ∈ hourlyPipeline kvtS ordS areas distr,
      r.timestamp_hour = b → r.city_id = c →
      r.dolgi = 0 ∧ r.vyruchka_s_abonementov = 0 ∧ r.sum_mnogor_abon = 0
        ∧ r.poezdok = 0 := by
  intro r hr hrb hrc
  simp only [hourlyPipeline, mergeKvtOrders] at hr
  obtain ⟨k, hk, hrk⟩ := List.mem_flatMap.mp hr
  split at hrk
  · rw [List.mem_singleton] at hrk
    subst hrk
    exact ⟨rfl, rfl, rfl, rfl⟩
  · exfalso
    obtain ⟨o, ho, hor⟩ := List.mem_map.mp hrk
    have hof := List.mem_filter.mp ho
    have hkey : ordersAggKey o.row = kvtAggKey k := by
      have := hof.2
      simpa using this
    have hkb : k.timestamp_hour = b := by rw [← hor] at hrb; exact hrb
    have hkc : k.city_id = c := by rw [← hor] at hrc; exact hrc
    have hob : o.row.timestamp_hour = b := by
      have hh := congrArg AggKey.timestamp_hour hkey
      simp only [ordersAggKey, kvtAggKey] at hh
      rw [hh, hkb]
    have hoc : o.row.city_id = c := by
      have hh := congrArg AggKey.city_id hkey
      simp only [ordersAggKey, kvtAggKey] at hh
      rw [hh, hkc]
    have hrow : o.row ∈ ordersAgg (ordersAttributed ordS areas) :=
      mem_distribute_src hof.1
    obtain ⟨ra, hra, hra1, hra2⟩ := mem_ordersAgg_src hrow
    obtain ⟨s, hsrc, hs1, hs2⟩ := mem_ordersAttributed_src hra
    exact h s hsrc ⟨by rw [← hs1, hra1, hob], by rw [← hs2, hra2, hoc]⟩

/-- Witness for C5: city 1 has a telemetry sample in zone Z1 but no
rides at all in bucket 0; the output row carries zeros in all three
share columns and in poezdok. -/
theorem C5_witness :
    (⟨0, 1, 1, "Z1", 1, 0, 0, 0, 0, 0, 0, 0, 0⟩ : FinalRow)
        ∈ hourlyPipeline [exSample] [] [exArea1] []
    ∧ (⟨0, 1, 1, "Z1", 1, 0, 0, 0, 0, 0, 0, 0, 0⟩ : FinalRow).dolgi = 0
    ∧ (⟨0, 1, 1, "Z1", 1, 0, 0, 0, 0, 0, 0, 0, 0⟩ : FinalRow).vyruchka_s_abonementov = 0
    ∧ (⟨0, 1, 1, "Z1", 1, 0, 0, 0, 0, 0, 0, 0, 0⟩ : FinalRow).sum_mnogor_abon = 0
    ∧ (⟨0, 1, 1, "Z1", 1, 0, 0, 0, 0, 0, 0, 0, 0⟩ : FinalRow).poezdok = 0 := by
  have hm : kvtMatches [exSample] [exArea1] = [⟨0, 1, 1, "Z1"⟩] := by
    simp only [kvtMatches, matchesOf, List.flatMap_cons, List.flatMap_nil,
      List.filterMap_cons, List.filterMap_nil, exContains_sample_area1, List.append_nil]
    simp [exSample, exArea1]
  have hattr : kvtAttributed [exSample] [exArea1] = [⟨0, 1, 1, 1, "Z1"⟩] := by
    simp only [kvtAttributed, hm]
    simp [sampleKey, exSample]
  have hpipe : hourlyPipeline [exSample] [] [exArea1] []
      = [⟨0, 1, 1, "Z1", 1, 0, 0, 0, 0, 0, 0, 0, 0⟩] := by
    simp only [hourlyPipeline, hattr]
    decide
  have hmem : (⟨0, 1, 1, "Z1", 1, 0, 0, 0, 0, 0, 0, 0, 0⟩ : FinalRow)
      ∈ hourlyPipeline [exSample] [] [exArea1] [] := by
    rw [hpipe]
    exact List.mem_singleton.mpr rfl
  have happ := C5_zero_ride_zero_shares [exSample] [] [exArea1] [] 0 1
    (by intro s hs; exact absurd hs (List.not_mem_nil s)) _ hmem rfl rfl
  exact ⟨hmem, happ.1, happ.2.1, happ.2.2.1, happ.2.2.2⟩

/-! ## Claim C6 -/

/-- Claim C6: at daily grain the kvt value of every output row is the
arithmetic MEAN of the day's hourly kvt values for its key, while
poezdok and the four ride-derived financial fields are the SUMS of the
corresponding hourly values. -/
theorem C6_daily_mean_and_sums :
    (∀ (rows : List KvtAggRow), ∀ r ∈ dailyKvtAgg rows,
      r.kvt = ((rows.filter (fun x => decide (kvtDailyKey x
            = ⟨r.start_day, r.city_id, r.area_id, r.area_name⟩))).map
          (fun x => (x.kvt : ℚ))).sum
        / ((rows.filter (fun x => decide (kvtDailyKey x
            = ⟨r.start_day, r.city_id, r.area_id, r.area_name⟩))).length : ℚ))
    ∧ (∀ (rows : List OrdersAggRow), ∀ r ∈ dailyOrdersAgg rows,
      r.poezdok = ((rows.filter (fun x => decide (ordersDailyKey x
            = ⟨r.start_day, r.city_id, r.area_id, r.area_name⟩))).map
          (fun x => x.poezdok)).sum
      ∧ r.obzchaya_stoimost = ((rows.filter (fun x => decide (ordersDailyKey x
            = ⟨r.start_day, r.city_id, r.area_id, r.area_name⟩))).map
          (fun x => x.obzchaya_stoimost)).sum
      ∧ r.oplacheno_bonusami = ((rows.filter (fun x => decide (ordersDailyKey x
            = ⟨r.start_day, r.city_id, r.area_id, r.area_name⟩))).map
          (fun x => x.oplacheno_bonusami)).sum
      ∧ r.skidka = ((rows.filter (fun x => decide (ordersDailyKey x
            = ⟨r.start_day, r.city_id, r.area_id, r.area_name⟩))).map
          (fun x => x.skidka)).sum
      ∧ r.abon = ((rows.filter (fun x => decide (ordersDailyKey x
            = ⟨r.start_day, r.city_id, r.area_id, r.area_name⟩))).map
          (fun x => x.abon)).sum) := by
  constructor
  · intro rows r hr
    unfold dailyKvtAgg at hr
    obtain ⟨k, hk, hkr⟩ := List.mem_map.mp hr
    subst hkr
    cases k
    rfl
  · intro rows r hr
    unfold dailyOrdersAgg at hr
    obtain ⟨k, hk, hkr⟩ := List.mem_map.mp hr
    subst hkr
    cases k
    exact ⟨rfl, rfl, rfl, rfl, rfl⟩

/-- Witness for C6: three hourly kvt values 2, 4, 6 of one
(city, zone) on one day roll up to the daily mean 4, while the hourly
poezdok values 1, 2, 3 and gross amounts 100, 50, 25 roll up to the
sums 6 and 175. -/
theorem C6_witness :
    (⟨0, 1, 1, "Z1", 4⟩ : DailyKvtRow) ∈ dailyKvtAgg exKvtHourly
    ∧ (⟨0, 1, 1, "Z1", 4⟩ : DailyKvtRow).kvt
        = ((exKvtHourly.filter (fun x => decide (kvtDailyKey x = ⟨0, 1, 1, "Z1"⟩))).map
            (fun x => (x.kvt : ℚ))).sum
          / ((exKvtHourly.filter (fun x => decide (kvtDailyKey x
              = ⟨0, 1, 1, "Z1"⟩))).length : ℚ)
    ∧ (⟨0, 1, 1, "Z1", 6, 175, 10, 4, 3⟩ : DailyOrdersRow) ∈ dailyOrdersAgg exOrdersHourly
    ∧ (⟨0, 1, 1, "Z1", 6, 175, 10, 4, 3⟩ : DailyOrdersRow).poezdok
        = ((exOrdersHourly.filter (fun x => decide (ordersDailyKey x
            = ⟨0, 1, 1, "Z1"⟩))).map (fun x => x.poezdok)).sum := by
  have hkfilter : exKvtHourly.filter (fun x => decide (kvtDailyKey x = ⟨0, 1, 1, "Z1"⟩))
      = exKvtHourly := by decide
  have hkdedup : (exKvtHourly.map kvtDailyKey).dedup = [⟨0, 1, 1, "Z1"⟩] := by decide
  have hmean : dailyKvtAgg exKvtHourly = [⟨0, 1, 1, "Z1", 4⟩] := by
    unfold dailyKvtAgg
    rw [hkdedup, List.map_cons, List.map_nil, hkfilter]
    norm_num [exKvtHourly]
  have hofilter : exOrdersHourly.filter
      (fun x => decide (ordersDailyKey x = ⟨0, 1, 1, "Z1"⟩)) = exOrdersHourly := by decide
  have hodedup : (exOrdersHourly.map ordersDailyKey).dedup = [⟨0, 1, 1, "Z1"⟩] := by decide
  have hsums : dailyOrdersAgg exOrdersHourly = [⟨0, 1, 1, "Z1", 6, 175, 10, 4, 3⟩] := by
    unfold dailyOrdersAgg
    rw [hodedup, List.map_cons, List.map_nil, hofilter]
    norm_num [exOrdersHourly]
  have hmem1 : (⟨0, 1, 1, "Z1", 4⟩ : DailyKvtRow) ∈ dailyKvtAgg exKvtHourly := by
    rw [hmean]
    exact List.mem_singleton.mpr rfl
  have hmem2 : (⟨0, 1, 1, "Z1", 6, 175, 10, 4, 3⟩ : DailyOrdersRow)
      ∈ dailyOrdersAgg exOrdersHourly := by
    rw [hsums]
    exact List.mem_singleton.mpr rfl
  exact ⟨hmem1, C6_daily_mean_and_sums.1 exKvtHourly _ hmem1,
    hmem2, (C6_daily_mean_and_sums.2 exOrdersHourly _ hmem2).1⟩

/-! ## Claim C7 -/

/-- Claim C7: replaying replace_window with the same window and the
same input rows yields an identical result set modulo the generation
timestamp: the second run's delete removes exactly the first run's
rows for the window (every inserted row's bucket lies in the window)
and appends an equal data set. -/
theorem C7_replace_window_idempotent (sink : List SinkRow) (wstart : ℕ)
    (rows : List FinalRow) (t1 t2 : ℕ)
    (h : ∀ r ∈ rows, wstart ≤ r.timestamp_hour) :
    (replaceWindow (replaceWindow sink wstart (stampAddTime t1 rows)) wstart
        (stampAddTime t2 rows)).map (fun x => x.data)
      = (replaceWindow sink wstart (stampAddTime t1 rows)).map (fun x => x.data) := by
  unfold replaceWindow deleteWindow
  rw [List.filter_append, List.filter_filter]
  have h1 : (stampAddTime t1 rows).filter
      (fun r => decide (r.data.timestamp_hour < wstart)) = [] := by
    apply List.filter_eq_nil_iff.mpr
    intro x hx
    obtain ⟨r, hr, hrx⟩ := List.mem_map.mp hx
    subst hrx
    simp only [decide_eq_true_eq]
    exact not_lt.mpr (h r hr)
  rw [h1, List.append_nil]
  have h2 : (fun a : SinkRow => decide (a.data.timestamp_hour < wstart)
        && decide (a.data.timestamp_hour < wstart))
      = (fun a : SinkRow => decide (a.data.timestamp_hour < wstart)) := by
    funext a
    rw [Bool.and_self]
  rw [h2, List.map_append, List.map_append]
  congr 1
  unfold stampAddTime
  rw [List.map_map, List.map_map]
  exact List.map_congr_left (fun a _ => rfl)

/-- Witness for C7: a rerun over the same window and rows, stamped at
times 10 and 20, leaves the data columns of the sink unchanged. -/
theorem C7_witness :
    (∀ r ∈ [exRowB], 3 ≤ r.timestamp_hour)
    ∧ (replaceWindow (replaceWindow [⟨exRowA, 0⟩] 3 (stampAddTime 10 [exRowB])) 3
        (stampAddTime 20 [exRowB])).map (fun x => x.data)
      = (replaceWindow [⟨exRowA, 0⟩] 3 (stampAddTime 10 [exRowB])).map (fun x => x.data) :=
  have h : ∀ r ∈ [exRowB], 3 ≤ r.timestamp_hour := by
    intro r hr
    rw [List.mem_singleton] at hr
    subst hr
    norm_num [exRowB]
  ⟨h, C7_replace_window_idempotent [⟨exRowA, 0⟩] 3 [exRowB] 10 20 h⟩

/-! ## Claim C4 -/

/-- Claim C4 (counterexample): the delete and the insert are NOT one
atomic unit: the delete is committed in its own transaction before the
separate append starts, so with one prior row in the window the sink
passes through the observable state [] — the prior window rows are
gone and the new rows are absent, a partially-empty result set that
the claim says must never be observable. -/
theorem C4_counterexample :
    (replaceWindowStates exSink 0 exNewRows)[1]? = some []
    ∧ exSink ≠ []
    ∧ replaceWindow exSink 0 exNewRows ≠ []
    ∧ (replaceWindowStates exSink 0 exNewRows)[1]? ≠ some exSink
    ∧ (replaceWindowStates exSink 0 exNewRows)[1]?
        ≠ some (replaceWindow exSink 0 exNewRows) := by
  refine ⟨?_, ?_, ?_, ?_, ?_⟩ <;> decide

/-- Claim C4 (amended): replace_window is not transactionally atomic:
the window-scoped delete commits first in its own transaction and the
append runs separately afterwards, so the intermediate observable sink
state is exactly the prior sink with every row of the window removed;
a failure between the two steps leaves the window empty rather than
restoring the prior rows. -/
theorem C4_amended_delete_commits_first (sink : List SinkRow) (wstart : ℕ)
    (rows : List SinkRow) :
    (replaceWindowStates sink wstart rows)[1]? = some (deleteWindow sink wstart)
    ∧ (∀ r ∈ deleteWindow sink wstart, r.data.timestamp_hour < wstart)
    ∧ (replaceWindowStates sink wstart rows)[2]?
        = some (deleteWindow sink wstart ++ rows) := by
  refine ⟨rfl, ?_, rfl⟩
  intro r hr
  unfold deleteWindow at hr
  have := (List.mem_filter.mp hr).2
  simpa using this

/-- Witness for C4 (amended): the observable intermediate state for
the example sink is the window-emptied sink. -/
theorem C4_witness :
    (replaceWindowStates exSink 0 exNewRows)[1]? = some (deleteWindow exSink 0)
    ∧ (∀ r ∈ deleteWindow exSink 0, r.data.timestamp_hour < 0)
    ∧ (replaceWindowStates exSink 0 exNewRows)[2]?
        = some (deleteWindow exSink 0 ++ exNewRows) :=
  C4_amended_delete_commits_first exSink 0 exNewRows

/-! ## Claim C10 -/

/-- Claim C10: the generation timestamp add_time is assigned once per
grain as a single scalar before the write: every row of one run's
result set carries the same add_time value, and two runs stamped at
different times are distinguishable by this column alone. -/
theorem C10_single_add_time (t1 t2 : ℕ) (rows1 rows2 : List FinalRow) :
    (∀ r1 ∈ stampAddTime t1 rows1, ∀ r2 ∈ stampAddTime t1 rows1,
        r1.add_time = r2.add_time)
    ∧ (t1 ≠ t2 → ∀ r1 ∈ stampAddTime t1 rows1, ∀ r2 ∈ stampAddTime t2 rows2,
        r1.add_time ≠ r2.add_time) := by
  constructor
  · intro r1 h1 r2 h2
    obtain ⟨a, -, ha⟩ := List.mem_map.mp h1
    obtain ⟨b, -, hb⟩ := List.mem_map.mp h2
    subst ha
    subst hb
    rfl
  · intro hne r1 h1 r2 h2
    obtain ⟨a, -, ha⟩ := List.mem_map.mp h1
    obtain ⟨b, -, hb⟩ := List.mem_map.mp h2
    subst ha
    subst hb
    simpa using hne

/-- Witness for C10: the two example rows stamped at time 10 share one
add_time, and rows of a second run stamped at 20 differ from them. -/
theorem C10_witness :
    (∀ r1 ∈ stampAddTime 10 [exRowA, exRowB], ∀ r2 ∈ stampAddTime 10 [exRowA, exRowB],
        r1.add_time = r2.add_time)
    ∧ ((10 : ℕ) ≠ 20 → ∀ r1 ∈ stampAddTime 10 [exRowA, exRowB],
        ∀ r2 ∈ stampAddTime 20 [exRowB], r1.add_time ≠ r2.add_time) :=
  C10_single_add_time 10 20 [exRowA, exRowB] [exRowB]
